import Mathlib

/-!
Verification of the pygv configuration layer (`src/pygv/_config.py`,
`src/pygv/_tracks.py`).

The Python code is shallowly embedded: `msgspec.Struct` classes become Lean
structures, the `UNSET` sentinel becomes the `UnsetOr` type, fallible code
returns `Except String`, and the ambient filesystem / resource provider used
by `servable` is passed explicitly as an `FsEnv` record of functions.
-/

set_option maxHeartbeats 1000000

namespace Pygv

/-- Model of `msgspec.UNSET`: a field is either unset or carries a value.
`UnsetOr α` corresponds to the Python annotation `t.Union[α, UnsetType]`
with default `UNSET`. -/
inductive UnsetOr (α : Type) where
  | unset : UnsetOr α
  | val (a : α) : UnsetOr α

/-- Opaque carrier for a Python `float` value.  The configuration layer only
stores and re-emits floats, it never computes with them, so the carrier is an
uninterpreted wrapper. -/
structure PyFloat where
  bits : Nat

/-- Small JSON-like universe used for the untyped `dict` field
(`WigTrack.color_scale`, annotated `t.Union[dict, UnsetType]` in the source).
The value is only carried through, never inspected. -/
inductive PyAny where
  | str (s : String) : PyAny
  | int (i : Int) : PyAny
  | bool (b : Bool) : PyAny
  | float (f : PyFloat) : PyAny
  | list (xs : List PyAny) : PyAny
  | dict (xs : List (String × PyAny)) : PyAny
  | none : PyAny

/-- Splitting a character list at every occurrence of a separator, keeping
empty segments, exactly as Python's `str.split(sep)`:
`splitOnChar '.' "a..b"` gives `["a", "", "b"]`. -/
def splitOnChar (sep : Char) : List Char → List (List Char)
  | [] => [[]]
  | c :: cs =>
    let r := splitOnChar sep cs
    if c == sep then [] :: r
    else
      match r with
      | [] => [[c]]
      | g :: gs => (c :: g) :: gs

/-- ASCII lower-casing of one character (Python `str.lower` restricted to the
ASCII range, which covers every string this configuration layer compares). -/
def lowerChar (c : Char) : Char :=
  if 'A' ≤ c && c ≤ 'Z' then Char.ofNat (c.toNat + 32) else c

/-- Python `filename.split(".")`. -/
def pySplitDot (s : String) : List String :=
  (splitOnChar '.' s.data).map (fun cs => String.mk cs)

/-- Python `s.lower()` (ASCII). -/
def pyLower (s : String) : String := String.mk (s.data.map lowerChar)

/-- Python `s.startswith(p)`. -/
def pyStartsWith (s p : String) : Bool := p.data.isPrefixOf s.data

/-- `is_href` from `_config.py`:
`s.startswith(("http", "https"))` — true when the string starts with either
prefix (the second test is redundant, kept as in the source). -/
def is_href (s : String) : Bool :=
  pyStartsWith s "http" || pyStartsWith s "https"

/-- `guess_format` from `_config.py`.

```python
def guess_format(filename):
    if filename is None:
        return None
    parts = filename.split(".")
    filetype = parts[-1].lower()
    if filetype == "gz":
        filetype = parts[-2].lower()
    return filetype
```

`parts[-1]` / `parts[-2]` are Python negative indices; `parts[-2]` raises
`IndexError` when `parts` has fewer than two elements, which the `Except`
error models.  `splitOn "."` returns a non-empty list just as `str.split`
does; the impossible empty case is mapped to an error. -/
def guess_format (filename : Option String) : Except String (Option String) :=
  match filename with
  | Option.none => Except.ok Option.none
  | Option.some f =>
    match (pySplitDot f).reverse with
    | [] => Except.error "unreachable: str.split returns a non-empty list"
    | last :: rest =>
      let filetype := pyLower last
      if filetype == "gz" then
        match rest with
        | [] => Except.error "IndexError: list index out of range"
        | prev :: _ => Except.ok (Option.some (pyLower prev))
      else Except.ok (Option.some filetype)

/-- Membership of an optional format string in a set of formats, as in the
Python expression `format_ in {...}` (where `format_` may be `None`, which is
a member of no string set). -/
def fmtIn (format_ : Option String) (fmts : List String) : Bool :=
  match format_ with
  | Option.some f => fmts.contains f
  | Option.none => false

/-- `resolve_track_type` from `_config.py`: the ordered first-match chain of
thirteen rules.  A failed match raises `ValueError("Unknown track type, got:
\x7b\x7d")` (the source never interpolates the message). -/
def resolve_track_type (type_ format_ : Option String) : Except String String :=
  if type_ == Option.some "annotation" || fmtIn format_ ["bed", "gff", "gff3", "gtf", "bedpe"] then
    Except.ok "annotation"
  else if type_ == Option.some "wig" || fmtIn format_ ["bigWig", "bw", "bg", "bedGraph"] then
    Except.ok "wig"
  else if type_ == Option.some "alignment" || fmtIn format_ ["bam", "cram"] then
    Except.ok "alignment"
  else if type_ == Option.some "variant" || fmtIn format_ ["vcf"] then
    Except.ok "variant"
  else if type_ == Option.some "mut" || fmtIn format_ ["mut", "maf"] then
    Except.ok "mut"
  else if type_ == Option.some "seg" || fmtIn format_ ["mut", "seg"] then
    Except.ok "seg"
  else if type_ == Option.some "gwas" || fmtIn format_ ["bed", "gwas"] then
    Except.ok "gwas"
  else if type_ == Option.some "interact" || fmtIn format_ ["bedpe", "interact", "bigInteract"] then
    Except.ok "interact"
  else if type_ == Option.some "qtl" || fmtIn format_ ["qtl"] then
    Except.ok "qtl"
  else if type_ == Option.some "junction" || fmtIn format_ ["bed"] then
    Except.ok "junction"
  else if type_ == Option.some "cnvpytor" || fmtIn format_ ["pytor", "vcf"] then
    Except.ok "cnvpytor"
  else if type_ == Option.some "arc" || fmtIn format_ ["bp", "bed"] then
    Except.ok "arc"
  else if type_ == Option.some "merged" then
    Except.ok "merged"
  else
    Except.error "Unknown track type, got: \x7b\x7d"

/-- The thirteen resolver rules of spec section 4.2, written as an ordered
table of (variant tag, format set) pairs.  `"merged"` matches on type only,
so its format set is empty. -/
def specRules : List (String × List String) :=
  [ ("annotation", ["bed", "gff", "gff3", "gtf", "bedpe"])
  , ("wig", ["bigWig", "bw", "bg", "bedGraph"])
  , ("alignment", ["bam", "cram"])
  , ("variant", ["vcf"])
  , ("mut", ["mut", "maf"])
  , ("seg", ["mut", "seg"])
  , ("gwas", ["bed", "gwas"])
  , ("interact", ["bedpe", "interact", "bigInteract"])
  , ("qtl", ["qtl"])
  , ("junction", ["bed"])
  , ("cnvpytor", ["pytor", "vcf"])
  , ("arc", ["bp", "bed"])
  , ("merged", []) ]

/-- A rule of the spec table matches when the explicit type equals its tag or
the guessed format lies in its format set. -/
def ruleMatches (type_ format_ : Option String) (r : String × List String) : Bool :=
  type_ == Option.some r.1 || fmtIn format_ r.2

/-- First-match evaluation of an ordered rule table, failing with the
`UnknownTrackType` message when no rule matches. -/
def applyRules (rules : List (String × List String)) (type_ format_ : Option String) :
    Except String String :=
  match rules with
  | [] => Except.error "Unknown track type, got: \x7b\x7d"
  | r :: rs =>
    if ruleMatches type_ format_ r then Except.ok r.1
    else applyRules rs type_ format_

/-! ## Track schema (`_tracks.py`)

Each `msgspec.Struct` class becomes a Lean structure.  `t.Literal[...]`
annotations become small enumerations with `print`/`parse` functions; the
wire keys are camel-cased (plus the irregular rename `index_url → indexURL`),
which only affects the names of dictionary keys and is noted where relevant.
-/

/-- `t.Literal["file", "htsget", "custom"]` (`BaseTrack.source_type`). -/
inductive SourceType where
  | file | htsget | custom

def SourceType.print : SourceType → String
  | .file => "file"
  | .htsget => "htsget"
  | .custom => "custom"

def SourceType.parse : String → Except String SourceType
  | "file" => Except.ok .file
  | "htsget" => Except.ok .htsget
  | "custom" => Except.ok .custom
  | s => Except.error ("invalid literal value " ++ s)

/-- `t.Literal["COLLAPSED", "EXPANDED", "SQUISHED"]`, the display-mode set
shared by `AnnotationTrack`, `VariantTrack` and `MutationTrack`. -/
inductive DisplayModeCES where
  | collapsed | expanded | squished

def DisplayModeCES.print : DisplayModeCES → String
  | .collapsed => "COLLAPSED"
  | .expanded => "EXPANDED"
  | .squished => "SQUISHED"

def DisplayModeCES.parse : String → Except String DisplayModeCES
  | "COLLAPSED" => Except.ok .collapsed
  | "EXPANDED" => Except.ok .expanded
  | "SQUISHED" => Except.ok .squished
  | s => Except.error ("invalid literal value " ++ s)

/-- `t.Literal["EXPANDED", "SQUISHED", "FULL"]` (`AlignmentTrack.display_mode`). -/
inductive DisplayModeESFull where
  | expanded | squished | full

def DisplayModeESFull.print : DisplayModeESFull → String
  | .expanded => "EXPANDED"
  | .squished => "SQUISHED"
  | .full => "FULL"

def DisplayModeESFull.parse : String → Except String DisplayModeESFull
  | "EXPANDED" => Except.ok .expanded
  | "SQUISHED" => Except.ok .squished
  | "FULL" => Except.ok .full
  | s => Except.error ("invalid literal value " ++ s)

/-- `t.Literal["EXPANDED", "SQUISHED", "FILL"]`
(`SegmentedCopyNumberTrack.display_mode`). -/
inductive DisplayModeESFill where
  | expanded | squished | fill

def DisplayModeESFill.print : DisplayModeESFill → String
  | .expanded => "EXPANDED"
  | .squished => "SQUISHED"
  | .fill => "FILL"

def DisplayModeESFill.parse : String → Except String DisplayModeESFill
  | "EXPANDED" => Except.ok .expanded
  | "SQUISHED" => Except.ok .squished
  | "FILL" => Except.ok .fill
  | s => Except.error ("invalid literal value " ++ s)

/-- `t.Literal["bar", "points", "heatmap", "line"]` (`WigTrack.graph_type`). -/
inductive GraphType where
  | bar | points | heatmap | line

def GraphType.print : GraphType → String
  | .bar => "bar"
  | .points => "points"
  | .heatmap => "heatmap"
  | .line => "line"

def GraphType.parse : String → Except String GraphType
  | "bar" => Except.ok .bar
  | "points" => Except.ok .points
  | "heatmap" => Except.ok .heatmap
  | "line" => Except.ok .line
  | s => Except.error ("invalid literal value " ++ s)

/-- `t.Literal["min", "max", "mean"]` (`WigTrack.window_function`). -/
inductive WindowFunction where
  | min | max | mean

def WindowFunction.print : WindowFunction → String
  | .min => "min"
  | .max => "max"
  | .mean => "mean"

def WindowFunction.parse : String → Except String WindowFunction
  | "min" => Except.ok .min
  | "max" => Except.ok .max
  | "mean" => Except.ok .mean
  | s => Except.error ("invalid literal value " ++ s)

/-- `t.Literal["BASE", "STRAND", "INSERT_SIZE", "MATE_CHR", "MQ", "TAG"]`
(`AlignmentSorting.option`). -/
inductive SortOptionE where
  | base | strand | insertSize | mateChr | mq | tag

def SortOptionE.print : SortOptionE → String
  | .base => "BASE"
  | .strand => "STRAND"
  | .insertSize => "INSERT_SIZE"
  | .mateChr => "MATE_CHR"
  | .mq => "MQ"
  | .tag => "TAG"

def SortOptionE.parse : String → Except String SortOptionE
  | "BASE" => Except.ok .base
  | "STRAND" => Except.ok .strand
  | "INSERT_SIZE" => Except.ok .insertSize
  | "MATE_CHR" => Except.ok .mateChr
  | "MQ" => Except.ok .mq
  | "TAG" => Except.ok .tag
  | s => Except.error ("invalid literal value " ++ s)

/-- `t.Literal["ASC", "DESC"]` (sorting direction). -/
inductive SortDirection where
  | asc | desc

def SortDirection.print : SortDirection → String
  | .asc => "ASC"
  | .desc => "DESC"

def SortDirection.parse : String → Except String SortDirection
  | "ASC" => Except.ok .asc
  | "DESC" => Except.ok .desc
  | s => Except.error ("invalid literal value " ++ s)

/-- `t.Literal["nested", "proportional", "inView", "partialInView"]`
(`InteractTrack.arc_type`). -/
inductive ArcTypeE where
  | nested | proportional | inView | partialInView

def ArcTypeE.print : ArcTypeE → String
  | .nested => "nested"
  | .proportional => "proportional"
  | .inView => "inView"
  | .partialInView => "partialInView"

def ArcTypeE.parse : String → Except String ArcTypeE
  | "nested" => Except.ok .nested
  | "proportional" => Except.ok .proportional
  | "inView" => Except.ok .inView
  | "partialInView" => Except.ok .partialInView
  | s => Except.error ("invalid literal value " ++ s)

/-- `t.Literal["UP", "DOWN"]` (`InteractTrack.arc_orientation`,
`ArcTrack.arc_orientation`). -/
inductive ArcOrientation where
  | up | down

def ArcOrientation.print : ArcOrientation → String
  | .up => "UP"
  | .down => "DOWN"

def ArcOrientation.parse : String → Except String ArcOrientation
  | "UP" => Except.ok .up
  | "DOWN" => Except.ok .down
  | s => Except.error ("invalid literal value " ++ s)

/-- `t.Literal["numUniqueReads", "numReads", "isAnnotatedJunction", "strand",
"motif"]` (`SpliceJunctionTrack.color_by`). -/
inductive JunctionColorBy where
  | numUniqueReads | numReads | isAnnotatedJunction | strand | motif

def JunctionColorBy.print : JunctionColorBy → String
  | .numUniqueReads => "numUniqueReads"
  | .numReads => "numReads"
  | .isAnnotatedJunction => "isAnnotatedJunction"
  | .strand => "strand"
  | .motif => "motif"

def JunctionColorBy.parse : String → Except String JunctionColorBy
  | "numUniqueReads" => Except.ok .numUniqueReads
  | "numReads" => Except.ok .numReads
  | "isAnnotatedJunction" => Except.ok .isAnnotatedJunction
  | "strand" => Except.ok .strand
  | "motif" => Except.ok .motif
  | s => Except.error ("invalid literal value " ++ s)

/-- `t.Literal["numUniqueReads", "numReads", "isAnnotatedJunction"]`
(`SpliceJunctionTrack.thickness_based_on`). -/
inductive ThicknessBasedOn where
  | numUniqueReads | numReads | isAnnotatedJunction

def ThicknessBasedOn.print : ThicknessBasedOn → String
  | .numUniqueReads => "numUniqueReads"
  | .numReads => "numReads"
  | .isAnnotatedJunction => "isAnnotatedJunction"

def ThicknessBasedOn.parse : String → Except String ThicknessBasedOn
  | "numUniqueReads" => Except.ok .numUniqueReads
  | "numReads" => Except.ok .numReads
  | "isAnnotatedJunction" => Except.ok .isAnnotatedJunction
  | s => Except.error ("invalid literal value " ++ s)

/-- `t.Literal["random", "distance", "thickness"]`
(`SpliceJunctionTrack.bounce_height_based_on`). -/
inductive BounceHeightBasedOn where
  | random | distance | thickness

def BounceHeightBasedOn.print : BounceHeightBasedOn → String
  | .random => "random"
  | .distance => "distance"
  | .thickness => "thickness"

def BounceHeightBasedOn.parse : String → Except String BounceHeightBasedOn
  | "random" => Except.ok .random
  | "distance" => Except.ok .distance
  | "thickness" => Except.ok .thickness
  | s => Except.error ("invalid literal value " ++ s)

/-- `t.Literal["+", "-"]` (`SpliceJunctionTrack.hide_strand`). -/
inductive HideStrand where
  | plus | minus

def HideStrand.print : HideStrand → String
  | .plus => "+"
  | .minus => "-"

def HideStrand.parse : String → Except String HideStrand
  | "+" => Except.ok .plus
  | "-" => Except.ok .minus
  | s => Except.error ("invalid literal value " ++ s)

/-- `t.Literal["rd_snp", "rd", "snp"]` (`CnvPytorTrack.signal_name`). -/
inductive SignalName where
  | rdSnp | rd | snp

def SignalName.print : SignalName → String
  | .rdSnp => "rd_snp"
  | .rd => "rd"
  | .snp => "snp"

def SignalName.parse : String → Except String SignalName
  | "rd_snp" => Except.ok .rdSnp
  | "rd" => Except.ok .rd
  | "snp" => Except.ok .snp
  | s => Except.error ("invalid literal value " ++ s)

/-- `t.Literal["ReadDepth", "2D"]` (`CnvPytorTrack.cnv_caller`). -/
inductive CnvCaller where
  | readDepth | twoD

def CnvCaller.print : CnvCaller → String
  | .readDepth => "ReadDepth"
  | .twoD => "2D"

def CnvCaller.parse : String → Except String CnvCaller
  | "ReadDepth" => Except.ok .readDepth
  | "2D" => Except.ok .twoD
  | s => Except.error ("invalid literal value " ++ s)

def UnsetOr.map (f : α → β) : UnsetOr α → UnsetOr β
  | .unset => .unset
  | .val a => .val (f a)

/-- `GuideLine` (all three fields required, no defaults). -/
structure GuideLine where
  color : String
  dotted : Bool
  y : Int

/-- `AlignmentSorting` (initial sort order of packed alignment rows).
`direction` defaults to `"ASC"` in the source. -/
structure AlignmentSorting where
  chr : String
  pos : Int
  option : SortOptionE
  tag : UnsetOr String := .unset
  direction : SortDirection := .asc

/-- `AlignmentFiltering` (alignment filter options, with the source's
defaults). -/
structure AlignmentFiltering where
  vendor_failed : Bool := true
  duplicates : Bool := true
  secondary : Bool := false
  supplementary : Bool := false
  mq : Int := 0
  readgroups : UnsetOr (List String) := .unset

/-- `SegmentedCopyNumberSorting`.  The source field `end` is a Lean keyword
and is rendered `end_` here. -/
structure SegmentedCopyNumberSorting where
  chr : String
  start : Int
  end_ : Int
  direction : SortDirection

/-- `GwasColumns` (1-based column indices for the gwas format). -/
structure GwasColumns where
  chromosome : Int
  position : Int
  value : Int

/-- `BaseTrack`: shared shape of every track variant.  `name` and `url` have
no default and are therefore required by `msgspec`; every other field
defaults to `UNSET`.  The class variable `associated_file_formats` is type
metadata never read by the configuration code and is not part of instances.
Wire keys are camel-cased; `index_url` renames irregularly to `indexURL`. -/
structure BaseTrack where
  name : String
  url : String
  index_url : UnsetOr String := .unset
  source_type : UnsetOr SourceType := .unset
  format : UnsetOr String := .unset
  indexed : UnsetOr Bool := .unset
  order : UnsetOr Int := .unset
  color : UnsetOr String := .unset
  height : UnsetOr Int := .unset
  min_height : UnsetOr Int := .unset
  max_height : UnsetOr Int := .unset
  visibility_window : UnsetOr Int := .unset
  removable : UnsetOr Bool := .unset
  headers : UnsetOr (List (String × String)) := .unset
  oauth_token : UnsetOr String := .unset
  id : UnsetOr String := .unset

/-- `AnnotationTrack` (tag `"annotation"`).  The source re-declares `color`
only to change its docstring; the field is inherited unchanged. -/
structure AnnotationTrack extends BaseTrack where
  display_mode : UnsetOr DisplayModeCES := .unset
  expanded_row_height : UnsetOr Int := .unset
  squished_row_height : UnsetOr Int := .unset
  name_field : UnsetOr String := .unset
  max_rows : UnsetOr Int := .unset
  searchable : UnsetOr Bool := .unset
  searchable_fields : UnsetOr (List String) := .unset
  filter_types : UnsetOr (List String) := .unset
  alt_color : UnsetOr String := .unset
  color_by : UnsetOr String := .unset
  color_table : UnsetOr (List (String × String)) := .unset

/-- `WigTrack` (tag `"wig"`).  Note `autoscale : t.Union[bool, None] = None`:
unlike every other optional field its default is `None`, not `UNSET`, so it
is modelled as `Option Bool` with default `none`. -/
structure WigTrack extends BaseTrack where
  autoscale : Option Bool := Option.none
  autoscale_group : UnsetOr String := .unset
  min : UnsetOr Int := .unset
  max : UnsetOr Int := .unset
  alt_color : UnsetOr String := .unset
  color_scale : UnsetOr (List (String × PyAny)) := .unset
  guide_lines : UnsetOr (List GuideLine) := .unset
  graph_type : UnsetOr GraphType := .unset
  flip_axis : UnsetOr Bool := .unset
  window_function : UnsetOr WindowFunction := .unset

/-- `AlignmentTrack` (tag `"alignment"`). -/
structure AlignmentTrack extends BaseTrack where
  show_coverage : UnsetOr Bool := .unset
  show_alignments : UnsetOr Bool := .unset
  view_as_pairs : UnsetOr Bool := .unset
  pairs_supported : UnsetOr Bool := .unset
  deletion_color : UnsetOr String := .unset
  skipped_color : UnsetOr String := .unset
  insertion_color : UnsetOr String := .unset
  neg_strand_color : UnsetOr String := .unset
  pos_strand_color : UnsetOr String := .unset
  pair_connector_color : UnsetOr String := .unset
  color_by : UnsetOr String := .unset
  group_by : UnsetOr String := .unset
  sampling_window_size : UnsetOr Int := .unset
  sampling_depth : UnsetOr Int := .unset
  readgroup : UnsetOr String := .unset
  sort : UnsetOr AlignmentSorting := .unset
  filter : UnsetOr AlignmentFiltering := .unset
  show_soft_clips : UnsetOr Bool := .unset
  show_mismatches : UnsetOr Bool := .unset
  show_all_bases : UnsetOr Bool := .unset
  show_insertion_text : UnsetOr Bool := .unset
  insertion_text_color : UnsetOr String := .unset
  show_deletion_text : UnsetOr Bool := .unset
  deletion_text_color : UnsetOr String := .unset
  display_mode : UnsetOr DisplayModeESFull := .unset
  alignment_row_height : UnsetOr Int := .unset
  squished_row_height : UnsetOr Int := .unset
  coverage_color : UnsetOr String := .unset
  coverage_track_height : UnsetOr Int := .unset
  autoscale : UnsetOr Bool := .unset
  autoscale_group : UnsetOr String := .unset
  min : UnsetOr Int := .unset
  max : UnsetOr Int := .unset

/-- `VariantTrack` (tag `"variant"`). -/
structure VariantTrack extends BaseTrack where
  display_mode : UnsetOr DisplayModeCES := .unset
  squished_call_height : UnsetOr Int := .unset
  expanded_call_height : UnsetOr Int := .unset
  color_by : UnsetOr String := .unset
  color_table : UnsetOr (List (String × String)) := .unset
  no_call_color : UnsetOr String := .unset
  homevar_color : UnsetOr String := .unset
  hetvar_color : UnsetOr String := .unset
  homref_color : UnsetOr String := .unset

/-- `MutationTrack` (tag `"mut"`). -/
structure MutationTrack extends BaseTrack where
  display_mode : UnsetOr DisplayModeCES := .unset

/-- `SegmentedCopyNumberTrack` (tag `"seg"`). -/
structure SegmentedCopyNumberTrack extends BaseTrack where
  display_mode : UnsetOr DisplayModeESFill := .unset
  sort : UnsetOr SegmentedCopyNumberSorting := .unset

/-- `GwasTrack` (tag `"gwas"`).  Defined and exported by `_tracks.py` but
absent from the `Track` union at the bottom of that module. -/
structure GwasTrack extends BaseTrack where
  min : UnsetOr Int := .unset
  max : UnsetOr Int := .unset
  posterior_probability : UnsetOr Bool := .unset
  dot_size : UnsetOr Int := .unset
  columns : UnsetOr GwasColumns := .unset
  color_table : UnsetOr (List (String × String)) := .unset

/-- `InteractTrack` (tag `"interact"`). -/
structure InteractTrack extends BaseTrack where
  arc_type : UnsetOr ArcTypeE := .unset
  arc_orientation : UnsetOr ArcOrientation := .unset
  alpha : UnsetOr PyFloat := .unset
  thickness : UnsetOr Int := .unset

/-- `QtlTrack` (tag `"qtl"`). -/
structure QtlTrack extends BaseTrack where
  min : UnsetOr PyFloat := .unset
  max : UnsetOr PyFloat := .unset
  autoscale_percentile : UnsetOr PyFloat := .unset

/-- `SpliceJunctionTrack` (tag `"junction"`). -/
structure SpliceJunctionTrack extends BaseTrack where
  color_by : UnsetOr JunctionColorBy := .unset
  color_by_num_reads_threshold : UnsetOr Int := .unset
  thickness_based_on : UnsetOr ThicknessBasedOn := .unset
  bounce_height_based_on : UnsetOr BounceHeightBasedOn := .unset
  label_unique_read_count : UnsetOr Bool := .unset
  label_multi_mapped_read_count : UnsetOr Bool := .unset
  label_total_read_count : UnsetOr Bool := .unset
  label_motif : UnsetOr Bool := .unset
  label_annotated_junction : UnsetOr String := .unset
  min_uniquely_mapped_reads : UnsetOr Int := .unset
  min_total_reads : UnsetOr Int := .unset
  max_fraction_multi_mapped_reads : UnsetOr PyFloat := .unset
  min_spliced_alignment_overhang : UnsetOr Int := .unset
  hide_strand : UnsetOr HideStrand := .unset
  hide_annotated_junctions : UnsetOr Bool := .unset
  hide_unannotated_junctions : UnsetOr Bool := .unset
  hide_motifs : UnsetOr (List String) := .unset

/-- `CnvPytorTrack` (tag `"cnvpytor"`).  `signal_name`, `cnv_caller` and
`bin_size` carry explicit snake-case wire names in the source, overriding the
camel renaming. -/
structure CnvPytorTrack extends BaseTrack where
  signal_name : UnsetOr SignalName := .unset
  cnv_caller : UnsetOr CnvCaller := .unset
  bin_size : UnsetOr Int := .unset
  colors : UnsetOr (List String) := .unset

/-- `MergedTrack` (tag `"merged"`).  It extends `BaseTrack`, so it inherits
the required `name` and `url` fields; its own additions are the child wig
tracks (default `[]`) and `alpha`. -/
structure MergedTrack extends BaseTrack where
  tracks : List WigTrack := []
  alpha : UnsetOr PyFloat := .unset

/-- `ArcTrack` (tag `"arc"`). -/
structure ArcTrack extends BaseTrack where
  arc_orientation : UnsetOr ArcOrientation := .unset

/-- The `Track` union from the bottom of `_tracks.py`, in source order:
Annotation, Wig, Alignment, Variant, Mutation, SegmentedCopyNumber,
Interact, Qtl, SpliceJunction, CnvPytor, Merged, Arc.  `GwasTrack` is not a
member. -/
inductive Track where
  | annot (t : AnnotationTrack)
  | wig (t : WigTrack)
  | alignment (t : AlignmentTrack)
  | variant (t : VariantTrack)
  | mutation (t : MutationTrack)
  | seg (t : SegmentedCopyNumberTrack)
  | interact (t : InteractTrack)
  | qtl (t : QtlTrack)
  | junction (t : SpliceJunctionTrack)
  | cnvpytor (t : CnvPytorTrack)
  | merged (t : MergedTrack)
  | arc (t : ArcTrack)

/-- `Config.locus : t.Union[str, list[str], UnsetType]` — a set locus is
either one string or a list of strings. -/
inductive LocusVal where
  | one (s : String)
  | many (xs : List String)

/-- `Config` from `_config.py`. -/
structure Config where
  genome : UnsetOr String := .unset
  locus : UnsetOr LocusVal := .unset
  show_sample_names : UnsetOr Bool := .unset
  tracks : List Track := []

/-- The base-field part of any track variant. -/
def Track.base : Track → BaseTrack
  | .annot t => t.toBaseTrack
  | .wig t => t.toBaseTrack
  | .alignment t => t.toBaseTrack
  | .variant t => t.toBaseTrack
  | .mutation t => t.toBaseTrack
  | .seg t => t.toBaseTrack
  | .interact t => t.toBaseTrack
  | .qtl t => t.toBaseTrack
  | .junction t => t.toBaseTrack
  | .cnvpytor t => t.toBaseTrack
  | .merged t => t.toBaseTrack
  | .arc t => t.toBaseTrack

/-- Rebuild a track with its base fields transformed and everything else
unchanged (used to model the in-place mutation of `track.url` /
`track.index_url` in `Config.servable`). -/
def Track.mapBase (f : BaseTrack → BaseTrack) : Track → Track
  | .annot t => .annot { t with toBaseTrack := f t.toBaseTrack }
  | .wig t => .wig { t with toBaseTrack := f t.toBaseTrack }
  | .alignment t => .alignment { t with toBaseTrack := f t.toBaseTrack }
  | .variant t => .variant { t with toBaseTrack := f t.toBaseTrack }
  | .mutation t => .mutation { t with toBaseTrack := f t.toBaseTrack }
  | .seg t => .seg { t with toBaseTrack := f t.toBaseTrack }
  | .interact t => .interact { t with toBaseTrack := f t.toBaseTrack }
  | .qtl t => .qtl { t with toBaseTrack := f t.toBaseTrack }
  | .junction t => .junction { t with toBaseTrack := f t.toBaseTrack }
  | .cnvpytor t => .cnvpytor { t with toBaseTrack := f t.toBaseTrack }
  | .merged t => .merged { t with toBaseTrack := f t.toBaseTrack }
  | .arc t => .arc { t with toBaseTrack := f t.toBaseTrack }

/-- The `msgspec` discriminant tag of each union member. -/
def Track.tagOf : Track → String
  | .annot _ => "annotation"
  | .wig _ => "wig"
  | .alignment _ => "alignment"
  | .variant _ => "variant"
  | .mutation _ => "mut"
  | .seg _ => "seg"
  | .interact _ => "interact"
  | .qtl _ => "qtl"
  | .junction _ => "junction"
  | .cnvpytor _ => "cnvpytor"
  | .merged _ => "merged"
  | .arc _ => "arc"

/-- Child wig tracks: non-empty only for `MergedTrack`. -/
def Track.childrenOf : Track → List WigTrack
  | .merged t => t.tracks
  | _ => []

/-! ## Wire representation (`msgspec.to_builtins` / `msgspec.convert`)

A serialized track is a dictionary.  It is modelled by a flat record with one
entry per key the schema can mention; a field value `Option.none` means "key
absent", `Option.some Option.none` means "key present with JSON `null`", and
`Option.some (Option.some v)` a present value.  Unknown keys are ignored by
`msgspec.convert` (the default `forbid_unknown_fields=False`), so a fixed key
universe loses nothing.  Keys shared between variants at different value
types (`min`, `max` as int vs float; `sort` as alignment vs seg sorting) hold
a small sum. -/

/-- A JSON number on the wire: the `min`/`max` keys carry ints for wig and
alignment tracks but floats for qtl tracks. -/
inductive RawNum where
  | int (i : Int)
  | float (f : PyFloat)

/-- The `sort` key carries an `AlignmentSorting` object for alignment tracks
and a `SegmentedCopyNumberSorting` object for seg tracks. -/
inductive RawSortVal where
  | aln (s : AlignmentSorting)
  | seg (s : SegmentedCopyNumberSorting)

/-- Raw dictionary shape of a wig track (the element type of a merged
track's `tracks` list): the `BaseTrack` keys, the tag key `type`, and the
wig-specific keys.  Literal-typed fields are carried as their wire strings. -/
structure RawWig where
  type_ : Option (Option String) := Option.none
  name : Option (Option String) := Option.none
  url : Option (Option String) := Option.none
  index_url : Option (Option String) := Option.none
  source_type : Option (Option String) := Option.none
  format : Option (Option String) := Option.none
  indexed : Option (Option Bool) := Option.none
  order : Option (Option Int) := Option.none
  color : Option (Option String) := Option.none
  height : Option (Option Int) := Option.none
  min_height : Option (Option Int) := Option.none
  max_height : Option (Option Int) := Option.none
  visibility_window : Option (Option Int) := Option.none
  removable : Option (Option Bool) := Option.none
  headers : Option (Option (List (String × String))) := Option.none
  oauth_token : Option (Option String) := Option.none
  id : Option (Option String) := Option.none
  autoscale : Option (Option Bool) := Option.none
  autoscale_group : Option (Option String) := Option.none
  min : Option (Option RawNum) := Option.none
  max : Option (Option RawNum) := Option.none
  alt_color : Option (Option String) := Option.none
  color_scale : Option (Option (List (String × PyAny))) := Option.none
  guide_lines : Option (Option (List GuideLine)) := Option.none
  graph_type : Option (Option String) := Option.none
  flip_axis : Option (Option Bool) := Option.none
  window_function : Option (Option String) := Option.none

/-- Raw dictionary shape of an arbitrary track: the wig/base keys plus every
other key that appears in some variant's schema. -/
structure RawTrack extends RawWig where
  display_mode : Option (Option String) := Option.none
  expanded_row_height : Option (Option Int) := Option.none
  squished_row_height : Option (Option Int) := Option.none
  name_field : Option (Option String) := Option.none
  max_rows : Option (Option Int) := Option.none
  searchable : Option (Option Bool) := Option.none
  searchable_fields : Option (Option (List String)) := Option.none
  filter_types : Option (Option (List String)) := Option.none
  color_by : Option (Option String) := Option.none
  color_table : Option (Option (List (String × String))) := Option.none
  show_coverage : Option (Option Bool) := Option.none
  show_alignments : Option (Option Bool) := Option.none
  view_as_pairs : Option (Option Bool) := Option.none
  pairs_supported : Option (Option Bool) := Option.none
  deletion_color : Option (Option String) := Option.none
  skipped_color : Option (Option String) := Option.none
  insertion_color : Option (Option String) := Option.none
  neg_strand_color : Option (Option String) := Option.none
  pos_strand_color : Option (Option String) := Option.none
  pair_connector_color : Option (Option String) := Option.none
  group_by : Option (Option String) := Option.none
  sampling_window_size : Option (Option Int) := Option.none
  sampling_depth : Option (Option Int) := Option.none
  readgroup : Option (Option String) := Option.none
  sort : Option (Option RawSortVal) := Option.none
  filter : Option (Option AlignmentFiltering) := Option.none
  show_soft_clips : Option (Option Bool) := Option.none
  show_mismatches : Option (Option Bool) := Option.none
  show_all_bases : Option (Option Bool) := Option.none
  show_insertion_text : Option (Option Bool) := Option.none
  insertion_text_color : Option (Option String) := Option.none
  show_deletion_text : Option (Option Bool) := Option.none
  deletion_text_color : Option (Option String) := Option.none
  alignment_row_height : Option (Option Int) := Option.none
  coverage_color : Option (Option String) := Option.none
  coverage_track_height : Option (Option Int) := Option.none
  squished_call_height : Option (Option Int) := Option.none
  expanded_call_height : Option (Option Int) := Option.none
  no_call_color : Option (Option String) := Option.none
  homevar_color : Option (Option String) := Option.none
  hetvar_color : Option (Option String) := Option.none
  homref_color : Option (Option String) := Option.none
  arc_type : Option (Option String) := Option.none
  arc_orientation : Option (Option String) := Option.none
  alpha : Option (Option PyFloat) := Option.none
  thickness : Option (Option Int) := Option.none
  autoscale_percentile : Option (Option PyFloat) := Option.none
  color_by_num_reads_threshold : Option (Option Int) := Option.none
  thickness_based_on : Option (Option String) := Option.none
  bounce_height_based_on : Option (Option String) := Option.none
  label_unique_read_count : Option (Option Bool) := Option.none
  label_multi_mapped_read_count : Option (Option Bool) := Option.none
  label_total_read_count : Option (Option Bool) := Option.none
  label_motif : Option (Option Bool) := Option.none
  label_annotated_junction : Option (Option String) := Option.none
  min_uniquely_mapped_reads : Option (Option Int) := Option.none
  min_total_reads : Option (Option Int) := Option.none
  max_fraction_multi_mapped_reads : Option (Option PyFloat) := Option.none
  min_spliced_alignment_overhang : Option (Option Int) := Option.none
  hide_strand : Option (Option String) := Option.none
  hide_annotated_junctions : Option (Option Bool) := Option.none
  hide_unannotated_junctions : Option (Option Bool) := Option.none
  hide_motifs : Option (Option (List String)) := Option.none
  signal_name : Option (Option String) := Option.none
  cnv_caller : Option (Option String) := Option.none
  bin_size : Option (Option Int) := Option.none
  colors : Option (Option (List String)) := Option.none
  tracks : Option (Option (List RawWig)) := Option.none

/-- Raw dictionary shape of a whole configuration.  A `tracks` key holding
`null` would make the Python `for track in config.get("tracks", [])` loop
raise `TypeError`; that degenerate shape is left unrepresented. -/
structure RawConfig where
  genome : Option (Option String) := Option.none
  locus : Option (Option LocusVal) := Option.none
  show_sample_names : Option (Option Bool) := Option.none
  tracks : Option (List RawTrack) := Option.none

/-- Encoding of an `UNSET`-defaulted field under `omit_defaults=True`: an
unset field is omitted, a set one is emitted (never as null). -/
def UnsetOr.toRaw : UnsetOr α → Option (Option α)
  | .unset => Option.none
  | .val a => Option.some (Option.some a)

/-- Decoding a required field (`name`, `url`): absent or null fails. -/
def readReq (fieldName : String) (o : Option (Option α)) : Except String α :=
  match o with
  | Option.none => Except.error ("Object missing required field " ++ fieldName)
  | Option.some Option.none => Except.error ("Invalid null for required field " ++ fieldName)
  | Option.some (Option.some a) => Except.ok a

/-- Decoding a `t.Union[α, UnsetType]` field: absent decodes to `UNSET`;
an explicit null is not a member of the union and fails. -/
def readOpt (o : Option (Option α)) : Except String (UnsetOr α) :=
  match o with
  | Option.none => Except.ok .unset
  | Option.some Option.none => Except.error "Invalid null for optional field"
  | Option.some (Option.some a) => Except.ok (.val a)

/-- Decoding a literal-typed optional field from its wire string. -/
def readOptEnum (parse : String → Except String ε) (o : Option (Option String)) :
    Except String (UnsetOr ε) :=
  match o with
  | Option.none => Except.ok .unset
  | Option.some Option.none => Except.error "Invalid null for literal field"
  | Option.some (Option.some s) => (parse s).map .val

/-- Decoding `WigTrack.autoscale : t.Union[bool, None] = None`: unlike the
`UNSET`-defaulted fields this one accepts an explicit null, and an absent key
defaults to `None` — the two are indistinguishable after decoding. -/
def readAutoscale (o : Option (Option Bool)) : Except String (Option Bool) :=
  match o with
  | Option.none => Except.ok Option.none
  | Option.some Option.none => Except.ok Option.none
  | Option.some (Option.some b) => Except.ok (Option.some b)

/-- Decoding an int-typed `min`/`max` key (wig, alignment). -/
def readOptRawInt (o : Option (Option RawNum)) : Except String (UnsetOr Int) :=
  match o with
  | Option.none => Except.ok .unset
  | Option.some Option.none => Except.error "Invalid null for optional field"
  | Option.some (Option.some (RawNum.int i)) => Except.ok (.val i)
  | Option.some (Option.some (RawNum.float _)) => Except.error "Expected int, got float"

/-- Decoding a float-typed `min`/`max` key (qtl).  Values produced by
encoding a configuration are always floats here, so the int-to-float
coercion msgspec would additionally perform is irrelevant and not modelled. -/
def readOptRawFloat (o : Option (Option RawNum)) : Except String (UnsetOr PyFloat) :=
  match o with
  | Option.none => Except.ok .unset
  | Option.some Option.none => Except.error "Invalid null for optional field"
  | Option.some (Option.some (RawNum.float f)) => Except.ok (.val f)
  | Option.some (Option.some (RawNum.int _)) => Except.error "Expected float, got int"

/-- Decoding the alignment flavour of the `sort` key. -/
def readOptSortAln (o : Option (Option RawSortVal)) :
    Except String (UnsetOr AlignmentSorting) :=
  match o with
  | Option.none => Except.ok .unset
  | Option.some Option.none => Except.error "Invalid null for optional field"
  | Option.some (Option.some (RawSortVal.aln s)) => Except.ok (.val s)
  | Option.some (Option.some (RawSortVal.seg _)) =>
    Except.error "Expected alignment sorting object"

/-- Decoding the seg flavour of the `sort` key. -/
def readOptSortSeg (o : Option (Option RawSortVal)) :
    Except String (UnsetOr SegmentedCopyNumberSorting) :=
  match o with
  | Option.none => Except.ok .unset
  | Option.some Option.none => Except.error "Invalid null for optional field"
  | Option.some (Option.some (RawSortVal.seg s)) => Except.ok (.val s)
  | Option.some (Option.some (RawSortVal.aln _)) =>
    Except.error "Expected seg sorting object"

/-- Tag handling when decoding a concrete tagged struct (a `WigTrack` child
of a merged track): a present tag must match, an absent one is tolerated. -/
def checkTag (expected : String) (o : Option (Option String)) : Except String Unit :=
  match o with
  | Option.none => Except.ok ()
  | Option.some Option.none => Except.error ("Invalid null tag, expected " ++ expected)
  | Option.some (Option.some s) =>
    if s == expected then Except.ok ()
    else Except.error ("Invalid tag, expected " ++ expected ++ ", got " ++ s)

/-- Sequential effectful map over a list, visiting elements left to right and
stopping at the first failure — the shape of every `for` loop in
`_config.py` and of msgspec's list decoding. -/
def mapE (g : α → Except String β) : List α → Except String (List β)
  | [] => Except.ok []
  | a :: as => do
    let b ← g a
    let bs ← mapE g as
    Except.ok (b :: bs)

/-! ### Encoding (`msgspec.to_builtins`)

`omit_defaults=True` on every track struct: a field equal to its default is
omitted.  For `UNSET`-defaulted fields that means unset ⇒ omitted; for
`WigTrack.autoscale` (default `None`) that means `None` ⇒ omitted; for
`MergedTrack.tracks` (default `[]`) that means `[]` ⇒ omitted.  The tag key
`type` is always emitted. -/

def encodeBase (b : BaseTrack) : RawWig :=
  { name := Option.some (Option.some b.name)
    url := Option.some (Option.some b.url)
    index_url := b.index_url.toRaw
    source_type := (b.source_type.map SourceType.print).toRaw
    format := b.format.toRaw
    indexed := b.indexed.toRaw
    order := b.order.toRaw
    color := b.color.toRaw
    height := b.height.toRaw
    min_height := b.min_height.toRaw
    max_height := b.max_height.toRaw
    visibility_window := b.visibility_window.toRaw
    removable := b.removable.toRaw
    headers := b.headers.toRaw
    oauth_token := b.oauth_token.toRaw
    id := b.id.toRaw }

def encodeWigChild (t : WigTrack) : RawWig :=
  { encodeBase t.toBaseTrack with
    type_ := Option.some (Option.some "wig")
    autoscale := t.autoscale.map Option.some
    autoscale_group := t.autoscale_group.toRaw
    min := (t.min.map RawNum.int).toRaw
    max := (t.max.map RawNum.int).toRaw
    alt_color := t.alt_color.toRaw
    color_scale := t.color_scale.toRaw
    guide_lines := t.guide_lines.toRaw
    graph_type := (t.graph_type.map GraphType.print).toRaw
    flip_axis := t.flip_axis.toRaw
    window_function := (t.window_function.map WindowFunction.print).toRaw }

def encodeAnnotationT (t : AnnotationTrack) : RawTrack :=
  { toRawWig := { encodeBase t.toBaseTrack with
      type_ := Option.some (Option.some "annotation")
      alt_color := t.alt_color.toRaw }
    display_mode := (t.display_mode.map DisplayModeCES.print).toRaw
    expanded_row_height := t.expanded_row_height.toRaw
    squished_row_height := t.squished_row_height.toRaw
    name_field := t.name_field.toRaw
    max_rows := t.max_rows.toRaw
    searchable := t.searchable.toRaw
    searchable_fields := t.searchable_fields.toRaw
    filter_types := t.filter_types.toRaw
    color_by := t.color_by.toRaw
    color_table := t.color_table.toRaw }

def encodeAlignmentT (t : AlignmentTrack) : RawTrack :=
  { toRawWig := { encodeBase t.toBaseTrack with
      type_ := Option.some (Option.some "alignment")
      autoscale := t.autoscale.toRaw
      autoscale_group := t.autoscale_group.toRaw
      min := (t.min.map RawNum.int).toRaw
      max := (t.max.map RawNum.int).toRaw }
    show_coverage := t.show_coverage.toRaw
    show_alignments := t.show_alignments.toRaw
    view_as_pairs := t.view_as_pairs.toRaw
    pairs_supported := t.pairs_supported.toRaw
    deletion_color := t.deletion_color.toRaw
    skipped_color := t.skipped_color.toRaw
    insertion_color := t.insertion_color.toRaw
    neg_strand_color := t.neg_strand_color.toRaw
    pos_strand_color := t.pos_strand_color.toRaw
    pair_connector_color := t.pair_connector_color.toRaw
    color_by := t.color_by.toRaw
    group_by := t.group_by.toRaw
    sampling_window_size := t.sampling_window_size.toRaw
    sampling_depth := t.sampling_depth.toRaw
    readgroup := t.readgroup.toRaw
    sort := (t.sort.map RawSortVal.aln).toRaw
    filter := t.filter.toRaw
    show_soft_clips := t.show_soft_clips.toRaw
    show_mismatches := t.show_mismatches.toRaw
    show_all_bases := t.show_all_bases.toRaw
    show_insertion_text := t.show_insertion_text.toRaw
    insertion_text_color := t.insertion_text_color.toRaw
    show_deletion_text := t.show_deletion_text.toRaw
    deletion_text_color := t.deletion_text_color.toRaw
    display_mode := (t.display_mode.map DisplayModeESFull.print).toRaw
    alignment_row_height := t.alignment_row_height.toRaw
    squished_row_height := t.squished_row_height.toRaw
    coverage_color := t.coverage_color.toRaw
    coverage_track_height := t.coverage_track_height.toRaw }

def encodeVariantT (t : VariantTrack) : RawTrack :=
  { toRawWig := { encodeBase t.toBaseTrack with
      type_ := Option.some (Option.some "variant") }
    display_mode := (t.display_mode.map DisplayModeCES.print).toRaw
    squished_call_height := t.squished_call_height.toRaw
    expanded_call_height := t.expanded_call_height.toRaw
    color_by := t.color_by.toRaw
    color_table := t.color_table.toRaw
    no_call_color := t.no_call_color.toRaw
    homevar_color := t.homevar_color.toRaw
    hetvar_color := t.hetvar_color.toRaw
    homref_color := t.homref_color.toRaw }

def encodeMutationT (t : MutationTrack) : RawTrack :=
  { toRawWig := { encodeBase t.toBaseTrack with
      type_ := Option.some (Option.some "mut") }
    display_mode := (t.display_mode.map DisplayModeCES.print).toRaw }

def encodeSegT (t : SegmentedCopyNumberTrack) : RawTrack :=
  { toRawWig := { encodeBase t.toBaseTrack with
      type_ := Option.some (Option.some "seg") }
    display_mode := (t.display_mode.map DisplayModeESFill.print).toRaw
    sort := (t.sort.map RawSortVal.seg).toRaw }

def encodeInteractT (t : InteractTrack) : RawTrack :=
  { toRawWig := { encodeBase t.toBaseTrack with
      type_ := Option.some (Option.some "interact") }
    arc_type := (t.arc_type.map ArcTypeE.print).toRaw
    arc_orientation := (t.arc_orientation.map ArcOrientation.print).toRaw
    alpha := t.alpha.toRaw
    thickness := t.thickness.toRaw }

def encodeQtlT (t : QtlTrack) : RawTrack :=
  { toRawWig := { encodeBase t.toBaseTrack with
      type_ := Option.some (Option.some "qtl")
      min := (t.min.map RawNum.float).toRaw
      max := (t.max.map RawNum.float).toRaw }
    autoscale_percentile := t.autoscale_percentile.toRaw }

def encodeJunctionT (t : SpliceJunctionTrack) : RawTrack :=
  { toRawWig := { encodeBase t.toBaseTrack with
      type_ := Option.some (Option.some "junction") }
    color_by := (t.color_by.map JunctionColorBy.print).toRaw
    color_by_num_reads_threshold := t.color_by_num_reads_threshold.toRaw
    thickness_based_on := (t.thickness_based_on.map ThicknessBasedOn.print).toRaw
    bounce_height_based_on :=
      (t.bounce_height_based_on.map BounceHeightBasedOn.print).toRaw
    label_unique_read_count := t.label_unique_read_count.toRaw
    label_multi_mapped_read_count := t.label_multi_mapped_read_count.toRaw
    label_total_read_count := t.label_total_read_count.toRaw
    label_motif := t.label_motif.toRaw
    label_annotated_junction := t.label_annotated_junction.toRaw
    min_uniquely_mapped_reads := t.min_uniquely_mapped_reads.toRaw
    min_total_reads := t.min_total_reads.toRaw
    max_fraction_multi_mapped_reads := t.max_fraction_multi_mapped_reads.toRaw
    min_spliced_alignment_overhang := t.min_spliced_alignment_overhang.toRaw
    hide_strand := (t.hide_strand.map HideStrand.print).toRaw
    hide_annotated_junctions := t.hide_annotated_junctions.toRaw
    hide_unannotated_junctions := t.hide_unannotated_junctions.toRaw
    hide_motifs := t.hide_motifs.toRaw }

def encodeCnvPytorT (t : CnvPytorTrack) : RawTrack :=
  { toRawWig := { encodeBase t.toBaseTrack with
      type_ := Option.some (Option.some "cnvpytor") }
    signal_name := (t.signal_name.map SignalName.print).toRaw
    cnv_caller := (t.cnv_caller.map CnvCaller.print).toRaw
    bin_size := t.bin_size.toRaw
    colors := t.colors.toRaw }

def encodeMergedT (t : MergedTrack) : RawTrack :=
  { toRawWig := { encodeBase t.toBaseTrack with
      type_ := Option.some (Option.some "merged") }
    tracks :=
      if t.tracks.isEmpty then Option.none
      else Option.some (Option.some (t.tracks.map encodeWigChild))
    alpha := t.alpha.toRaw }

def encodeArcT (t : ArcTrack) : RawTrack :=
  { toRawWig := { encodeBase t.toBaseTrack with
      type_ := Option.some (Option.some "arc") }
    arc_orientation := (t.arc_orientation.map ArcOrientation.print).toRaw }

def encodeTrack : Track → RawTrack
  | .annot t => encodeAnnotationT t
  | .wig t => { toRawWig := encodeWigChild t }
  | .alignment t => encodeAlignmentT t
  | .variant t => encodeVariantT t
  | .mutation t => encodeMutationT t
  | .seg t => encodeSegT t
  | .interact t => encodeInteractT t
  | .qtl t => encodeQtlT t
  | .junction t => encodeJunctionT t
  | .cnvpytor t => encodeCnvPytorT t
  | .merged t => encodeMergedT t
  | .arc t => encodeArcT t

def encodeConfig (c : Config) : RawConfig :=
  { genome := c.genome.toRaw
    locus := c.locus.toRaw
    show_sample_names := c.show_sample_names.toRaw
    tracks :=
      if c.tracks.isEmpty then Option.none
      else Option.some (c.tracks.map encodeTrack) }

/-! ### Decoding (`msgspec.convert`) -/

def decodeBase (r : RawWig) : Except String BaseTrack := do
  let name ← readReq "name" r.name
  let url ← readReq "url" r.url
  let index_url ← readOpt r.index_url
  let source_type ← readOptEnum SourceType.parse r.source_type
  let format ← readOpt r.format
  let indexed ← readOpt r.indexed
  let order ← readOpt r.order
  let color ← readOpt r.color
  let height ← readOpt r.height
  let min_height ← readOpt r.min_height
  let max_height ← readOpt r.max_height
  let visibility_window ← readOpt r.visibility_window
  let removable ← readOpt r.removable
  let headers ← readOpt r.headers
  let oauth_token ← readOpt r.oauth_token
  let id ← readOpt r.id
  Except.ok
    { name, url, index_url, source_type, format, indexed, order, color, height,
      min_height, max_height, visibility_window, removable, headers,
      oauth_token, id }

def decodeWigChild (r : RawWig) : Except String WigTrack := do
  let _ ← checkTag "wig" r.type_
  let base ← decodeBase r
  let autoscale ← readAutoscale r.autoscale
  let autoscale_group ← readOpt r.autoscale_group
  let min ← readOptRawInt r.min
  let max ← readOptRawInt r.max
  let alt_color ← readOpt r.alt_color
  let color_scale ← readOpt r.color_scale
  let guide_lines ← readOpt r.guide_lines
  let graph_type ← readOptEnum GraphType.parse r.graph_type
  let flip_axis ← readOpt r.flip_axis
  let window_function ← readOptEnum WindowFunction.parse r.window_function
  Except.ok
    { toBaseTrack := base, autoscale, autoscale_group, min, max, alt_color,
      color_scale, guide_lines, graph_type, flip_axis, window_function }

def decodeAnnotationT (r : RawTrack) : Except String AnnotationTrack := do
  let base ← decodeBase r.toRawWig
  let display_mode ← readOptEnum DisplayModeCES.parse r.display_mode
  let expanded_row_height ← readOpt r.expanded_row_height
  let squished_row_height ← readOpt r.squished_row_height
  let name_field ← readOpt r.name_field
  let max_rows ← readOpt r.max_rows
  let searchable ← readOpt r.searchable
  let searchable_fields ← readOpt r.searchable_fields
  let filter_types ← readOpt r.filter_types
  let alt_color ← readOpt r.alt_color
  let color_by ← readOpt r.color_by
  let color_table ← readOpt r.color_table
  Except.ok
    { toBaseTrack := base, display_mode, expanded_row_height,
      squished_row_height, name_field, max_rows, searchable,
      searchable_fields, filter_types, alt_color, color_by, color_table }

def decodeAlignmentT (r : RawTrack) : Except String AlignmentTrack := do
  let base ← decodeBase r.toRawWig
  let show_coverage ← readOpt r.show_coverage
  let show_alignments ← readOpt r.show_alignments
  let view_as_pairs ← readOpt r.view_as_pairs
  let pairs_supported ← readOpt r.pairs_supported
  let deletion_color ← readOpt r.deletion_color
  let skipped_color ← readOpt r.skipped_color
  let insertion_color ← readOpt r.insertion_color
  let neg_strand_color ← readOpt r.neg_strand_color
  let pos_strand_color ← readOpt r.pos_strand_color
  let pair_connector_color ← readOpt r.pair_connector_color
  let color_by ← readOpt r.color_by
  let group_by ← readOpt r.group_by
  let sampling_window_size ← readOpt r.sampling_window_size
  let sampling_depth ← readOpt r.sampling_depth
  let readgroup ← readOpt r.readgroup
  let sort ← readOptSortAln r.sort
  let filter ← readOpt r.filter
  let show_soft_clips ← readOpt r.show_soft_clips
  let show_mismatches ← readOpt r.show_mismatches
  let show_all_bases ← readOpt r.show_all_bases
  let show_insertion_text ← readOpt r.show_insertion_text
  let insertion_text_color ← readOpt r.insertion_text_color
  let show_deletion_text ← readOpt r.show_deletion_text
  let deletion_text_color ← readOpt r.deletion_text_color
  let display_mode ← readOptEnum DisplayModeESFull.parse r.display_mode
  let alignment_row_height ← readOpt r.alignment_row_height
  let squished_row_height ← readOpt r.squished_row_height
  let coverage_color ← readOpt r.coverage_color
  let coverage_track_height ← readOpt r.coverage_track_height
  let autoscale ← readOpt r.autoscale
  let autoscale_group ← readOpt r.autoscale_group
  let min ← readOptRawInt r.min
  let max ← readOptRawInt r.max
  Except.ok
    { toBaseTrack := base, show_coverage, show_alignments, view_as_pairs,
      pairs_supported, deletion_color, skipped_color, insertion_color,
      neg_strand_color, pos_strand_color, pair_connector_color, color_by,
      group_by, sampling_window_size, sampling_depth, readgroup, sort, filter,
      show_soft_clips, show_mismatches, show_all_bases, show_insertion_text,
      insertion_text_color, show_deletion_text, deletion_text_color,
      display_mode, alignment_row_height, squished_row_height, coverage_color,
      coverage_track_height, autoscale, autoscale_group, min, max }

def decodeVariantT (r : RawTrack) : Except String VariantTrack := do
  let base ← decodeBase r.toRawWig
  let display_mode ← readOptEnum DisplayModeCES.parse r.display_mode
  let squished_call_height ← readOpt r.squished_call_height
  let expanded_call_height ← readOpt r.expanded_call_height
  let color_by ← readOpt r.color_by
  let color_table ← readOpt r.color_table
  let no_call_color ← readOpt r.no_call_color
  let homevar_color ← readOpt r.homevar_color
  let hetvar_color ← readOpt r.hetvar_color
  let homref_color ← readOpt r.homref_color
  Except.ok
    { toBaseTrack := base, display_mode, squished_call_height,
      expanded_call_height, color_by, color_table, no_call_color,
      homevar_color, hetvar_color, homref_color }

def decodeMutationT (r : RawTrack) : Except String MutationTrack := do
  let base ← decodeBase r.toRawWig
  let display_mode ← readOptEnum DisplayModeCES.parse r.display_mode
  Except.ok { toBaseTrack := base, display_mode }

def decodeSegT (r : RawTrack) : Except String SegmentedCopyNumberTrack := do
  let base ← decodeBase r.toRawWig
  let display_mode ← readOptEnum DisplayModeESFill.parse r.display_mode
  let sort ← readOptSortSeg r.sort
  Except.ok { toBaseTrack := base, display_mode, sort }

def decodeInteractT (r : RawTrack) : Except String InteractTrack := do
  let base ← decodeBase r.toRawWig
  let arc_type ← readOptEnum ArcTypeE.parse r.arc_type
  let arc_orientation ← readOptEnum ArcOrientation.parse r.arc_orientation
  let alpha ← readOpt r.alpha
  let thickness ← readOpt r.thickness
  Except.ok { toBaseTrack := base, arc_type, arc_orientation, alpha, thickness }

def decodeQtlT (r : RawTrack) : Except String QtlTrack := do
  let base ← decodeBase r.toRawWig
  let min ← readOptRawFloat r.min
  let max ← readOptRawFloat r.max
  let autoscale_percentile ← readOpt r.autoscale_percentile
  Except.ok { toBaseTrack := base, min, max, autoscale_percentile }

def decodeJunctionT (r : RawTrack) : Except String SpliceJunctionTrack := do
  let base ← decodeBase r.toRawWig
  let color_by ← readOptEnum JunctionColorBy.parse r.color_by
  let color_by_num_reads_threshold ← readOpt r.color_by_num_reads_threshold
  let thickness_based_on ← readOptEnum ThicknessBasedOn.parse r.thickness_based_on
  let bounce_height_based_on ←
    readOptEnum BounceHeightBasedOn.parse r.bounce_height_based_on
  let label_unique_read_count ← readOpt r.label_unique_read_count
  let label_multi_mapped_read_count ← readOpt r.label_multi_mapped_read_count
  let label_total_read_count ← readOpt r.label_total_read_count
  let label_motif ← readOpt r.label_motif
  let label_annotated_junction ← readOpt r.label_annotated_junction
  let min_uniquely_mapped_reads ← readOpt r.min_uniquely_mapped_reads
  let min_total_reads ← readOpt r.min_total_reads
  let max_fraction_multi_mapped_reads ← readOpt r.max_fraction_multi_mapped_reads
  let min_spliced_alignment_overhang ← readOpt r.min_spliced_alignment_overhang
  let hide_strand ← readOptEnum HideStrand.parse r.hide_strand
  let hide_annotated_junctions ← readOpt r.hide_annotated_junctions
  let hide_unannotated_junctions ← readOpt r.hide_unannotated_junctions
  let hide_motifs ← readOpt r.hide_motifs
  Except.ok
    { toBaseTrack := base, color_by, color_by_num_reads_threshold,
      thickness_based_on, bounce_height_based_on, label_unique_read_count,
      label_multi_mapped_read_count, label_total_read_count, label_motif,
      label_annotated_junction, min_uniquely_mapped_reads, min_total_reads,
      max_fraction_multi_mapped_reads, min_spliced_alignment_overhang,
      hide_strand, hide_annotated_junctions, hide_unannotated_junctions,
      hide_motifs }

def decodeCnvPytorT (r : RawTrack) : Except String CnvPytorTrack := do
  let base ← decodeBase r.toRawWig
  let signal_name ← readOptEnum SignalName.parse r.signal_name
  let cnv_caller ← readOptEnum CnvCaller.parse r.cnv_caller
  let bin_size ← readOpt r.bin_size
  let colors ← readOpt r.colors
  Except.ok { toBaseTrack := base, signal_name, cnv_caller, bin_size, colors }

def decodeMergedT (r : RawTrack) : Except String MergedTrack := do
  let base ← decodeBase r.toRawWig
  let rawKids ←
    match r.tracks with
    | Option.none => Except.ok []
    | Option.some Option.none => Except.error "Invalid null for field tracks"
    | Option.some (Option.some xs) => Except.ok xs
  let kids ← mapE decodeWigChild rawKids
  let alpha ← readOpt r.alpha
  Except.ok { toBaseTrack := base, tracks := kids, alpha }

def decodeArcT (r : RawTrack) : Except String ArcTrack := do
  let base ← decodeBase r.toRawWig
  let arc_orientation ← readOptEnum ArcOrientation.parse r.arc_orientation
  Except.ok { toBaseTrack := base, arc_orientation }

/-- Tagged-union dispatch on the `type` key over the twelve members of the
`Track` union.  There is no branch for `"gwas"`: `GwasTrack` is absent from
the union in `_tracks.py`. -/
def decodeTrack (r : RawTrack) : Except String Track :=
  match r.type_ with
  | Option.some (Option.some "annotation") => Track.annot <$> decodeAnnotationT r
  | Option.some (Option.some "wig") => Track.wig <$> decodeWigChild r.toRawWig
  | Option.some (Option.some "alignment") => Track.alignment <$> decodeAlignmentT r
  | Option.some (Option.some "variant") => Track.variant <$> decodeVariantT r
  | Option.some (Option.some "mut") => Track.mutation <$> decodeMutationT r
  | Option.some (Option.some "seg") => Track.seg <$> decodeSegT r
  | Option.some (Option.some "interact") => Track.interact <$> decodeInteractT r
  | Option.some (Option.some "qtl") => Track.qtl <$> decodeQtlT r
  | Option.some (Option.some "junction") => Track.junction <$> decodeJunctionT r
  | Option.some (Option.some "cnvpytor") => Track.cnvpytor <$> decodeCnvPytorT r
  | Option.some (Option.some "merged") => Track.merged <$> decodeMergedT r
  | Option.some (Option.some "arc") => Track.arc <$> decodeArcT r
  | Option.some (Option.some s) => Except.error ("Invalid value " ++ s ++ " - at field type")
  | Option.some Option.none => Except.error "Invalid null - at field type"
  | Option.none => Except.error "Object missing required field type"

def decodeConfig (raw : RawConfig) : Except String Config := do
  let genome ← readOpt raw.genome
  let locus ← readOpt raw.locus
  let show_sample_names ← readOpt raw.show_sample_names
  let tracks ← mapE decodeTrack (raw.tracks.getD [])
  Except.ok { genome, locus, show_sample_names, tracks }

/-! ## `Config.from_dict` and `Config.servable` (`_config.py`) -/

/-- The per-track step of `Config.from_dict`:

```python
track["type"] = resolve_track_type(
    track.get("type"),
    track.get("format", guess_format(track.get("url"))),
)
```

`dict.get(k)` returns the stored value (possibly `None`) or `None` when the
key is absent — `Option.join` on the raw field.  The default argument
`guess_format(...)` of the second `get` is evaluated eagerly, before the
lookup, so a crash inside `guess_format` surfaces even when a `format` key
is present. -/
def resolveRawTrackType (tr : RawTrack) : Except String RawTrack := do
  let guessed ← guess_format tr.url.join
  let format_ : Option String :=
    match tr.format with
    | Option.none => guessed
    | Option.some v => v
  let ty ← resolve_track_type tr.type_.join format_
  Except.ok { tr with type_ := Option.some (Option.some ty) }

/-- `Config.from_dict`: deep-copy the input (implicit under value semantics),
inject the resolved `type` discriminant into every element of `tracks`, then
convert the mapping into a typed `Config`. -/
def Config.from_dict (raw : RawConfig) : Except String Config := do
  let resolved ← mapE resolveRawTrackType (raw.tracks.getD [])
  decodeConfig { raw with tracks := Option.some resolved }

/-- The ambient effects used by `resolve_file_or_url`: `pathlib.Path.resolve`
(absolutisation), `Path.is_file`, `Path.exists`, and the resource provider's
`create(path).url`. -/
structure FsEnv where
  is_file : String → Bool
  pathExists : String → Bool
  resolvePath : String → String
  provideUrl : String → String

/-- `resolve_file_or_url` from `_config.py`: remote references pass through
unchanged; a local path is absolutised and must be an existing regular file,
otherwise `FileNotFoundError(path)` is raised; a servable URL is then issued
by the provider.  The issued resource handle is additionally inserted into
the process-wide `_RESOURCES` registry, which has no observable effect on the
returned configuration and is not modelled. -/
def resolve_file_or_url (env : FsEnv) (path_or_url : String) : Except String String :=
  let normalized := path_or_url
  if is_href normalized then Except.ok normalized
  else
    let path := env.resolvePath normalized
    if !env.is_file path || !env.pathExists path then
      Except.error ("FileNotFoundError: " ++ path)
    else
      Except.ok (env.provideUrl path)

/-- Per-track body of the loop in `Config.servable`.  `track.url` is a
required `str`, so the guard `track.url != msgspec.UNSET` is always true and
the url is always rewritten; `index_url` is rewritten only when set. -/
def rewriteTrack (env : FsEnv) (t : Track) : Except String Track := do
  let u ← resolve_file_or_url env t.base.url
  let iu ←
    match t.base.index_url with
    | UnsetOr.unset => Except.ok UnsetOr.unset
    | UnsetOr.val v => do
      let w ← resolve_file_or_url env v
      Except.ok (UnsetOr.val w)
  Except.ok (Track.mapBase (fun b => { b with url := u, index_url := iu }) t)

/-- In-place update of a track's `url` and `index_url`, all other fields kept. -/
def setUrls (t : Track) (u : String) (iu : UnsetOr String) : Track :=
  Track.mapBase (fun b => { b with url := u, index_url := iu }) t

/-- `Config.servable`: first `copy = msgspec.convert(msgspec.to_builtins(self),
type=Config)` (a deep structural copy through the wire form), then the loop
over the copy's top-level tracks rewriting `url` and `index_url`. -/
def Config.servable (env : FsEnv) (c : Config) : Except String Config := do
  let copy ← decodeConfig (encodeConfig c)
  let tracks ← mapE (rewriteTrack env) copy.tracks
  Except.ok { copy with tracks }

/-- A track's `url`/`index_url` fields blanked out: used to state that
`servable` alters nothing but those two leaves. -/
def eraseUrls (t : Track) : Track :=
  Track.mapBase (fun b => { b with url := "", index_url := UnsetOr.unset }) t

/-- A string that `resolve_file_or_url env` rejects: not a remote reference,
and its resolved path is missing or not a regular file. -/
def badLocalUrl (env : FsEnv) (s : String) : Prop :=
  is_href s = false ∧
    (env.is_file (env.resolvePath s) = false ∨
      env.pathExists (env.resolvePath s) = false)

/-- The discriminant tags of the twelve members of the `Track` union, in
declaration order. -/
def unionTags : List String :=
  ["annotation", "wig", "alignment", "variant", "mut", "seg", "interact",
   "qtl", "junction", "cnvpytor", "merged", "arc"]

/-- The format argument that `Config.from_dict` passes to
`resolve_track_type` for a serialized track: the track's own `format` when
set, otherwise the format guessed from its (always present) `url` — with the
guess always computed first, as the eagerly evaluated `dict.get` default. -/
def resolvedFormatArg (t : Track) : Except String (Option String) := do
  let guessed ← guess_format (Option.some t.base.url)
  Except.ok
    (match t.base.format with
     | UnsetOr.unset => guessed
     | UnsetOr.val f => Option.some f)

/-- The relation between an input track and its `servable` output: the `url`
is resolved (remote URLs being returned unchanged), a set `index_url` is
resolved the same way, and nothing else changes — in particular the child
tracks of a merged track are exactly the input's children. -/
def rewrittenUrls (env : FsEnv) (t t' : Track) : Prop :=
  ∃ u iu,
    resolve_file_or_url env t.base.url = Except.ok u ∧
    t' = setUrls t u iu ∧
    (is_href t.base.url = true → u = t.base.url) ∧
    Track.childrenOf t' = Track.childrenOf t ∧
    eraseUrls t' = eraseUrls t ∧
    (t.base.index_url = UnsetOr.unset → iu = UnsetOr.unset) ∧
    (∀ v, t.base.index_url = UnsetOr.val v →
      ∃ w, resolve_file_or_url env v = Except.ok w ∧ iu = UnsetOr.val w)

/-! ## Concrete configurations and environments used as test inputs -/

/-- A seg track whose explicit `format` is `"mut"`, a format also claimed by
the earlier `mut` resolver rule. -/
def segTrackFmtMut : Track :=
  Track.seg { name := "n", url := "u", format := UnsetOr.val "mut" }

def cfgSegMut : Config := { tracks := [segTrackFmtMut] }

/-- The mut track that `from_dict` produces back from `cfgSegMut`'s wire
form. -/
def mutTrackFmtMut : Track :=
  Track.mutation { name := "n", url := "u", format := UnsetOr.val "mut" }

def cfgMutOut : Config := { tracks := [mutTrackFmtMut] }

/-- A configuration whose single track's tag/format survive re-resolution. -/
def cfgC6W : Config :=
  { genome := UnsetOr.val "hg38"
    tracks := [Track.annot { name := "a", url := "x.bed", format := UnsetOr.val "bed" }] }

/-- A filesystem in which every path exists and is a regular file. -/
def envW : FsEnv :=
  { is_file := fun _ => true
    pathExists := fun _ => true
    resolvePath := fun s => "/abs/" ++ s
    provideUrl := fun p => "http://localhost:8000/" ++ p }

def cfgC2W : Config :=
  { tracks :=
      [ Track.annot { name := "a", url := "https://host/y.bed", index_url := UnsetOr.val "https://host/y.bed.tbi" }
      , Track.wig { name := "w", url := "data.bw" } ] }

def cfgC2Wout : Config :=
  { tracks :=
      [ Track.annot { name := "a", url := "https://host/y.bed", index_url := UnsetOr.val "https://host/y.bed.tbi" }
      , Track.wig { name := "w", url := "http://localhost:8000//abs/data.bw" } ] }

/-- All-files-exist environment with an identity path resolver. -/
def envAll : FsEnv :=
  { is_file := fun _ => true
    pathExists := fun _ => true
    resolvePath := fun s => s
    provideUrl := fun p => "http://provider/" ++ p }

/-- A wig child with a local (non-remote) url. -/
def childW : WigTrack := { name := "c", url := "child.bw" }

def mergedCfgC2 : Config :=
  { tracks := [Track.merged { name := "m", url := "m.bw", tracks := [childW] }] }

def mergedCfgC2Out : Config :=
  { tracks := [Track.merged { name := "m", url := "http://provider/m.bw", tracks := [childW] }] }

/-- A filesystem on which no path is a regular file. -/
def envBad : FsEnv :=
  { is_file := fun _ => false
    pathExists := fun _ => false
    resolvePath := fun s => "/abs/" ++ s
    provideUrl := fun p => "http://localhost:8000/" ++ p }

def cfgC7W : Config :=
  { tracks := [Track.annot { name := "a", url := "missing.bed" }] }

/-- A raw config whose only track resolves to the `"gwas"` tag. -/
def gwasRawCfg : RawConfig :=
  { tracks := Option.some
      [ { name := Option.some (Option.some "g")
          url := Option.some (Option.some "x.tsv")
          format := Option.some (Option.some "gwas") } ] }

/-- A raw wig child carrying the tag `"wig"` but a format (`"bed"`) on which
the resolver's first-match chain would yield `"annotation"`. -/
def c4RawChild : RawWig :=
  { type_ := Option.some (Option.some "wig")
    name := Option.some (Option.some "c")
    url := Option.some (Option.some "u.txt")
    format := Option.some (Option.some "bed") }

def c4Raw : RawConfig :=
  { tracks := Option.some
      [ { type_ := Option.some (Option.some "merged")
          name := Option.some (Option.some "m")
          url := Option.some (Option.some "m.txt")
          tracks := Option.some (Option.some [c4RawChild]) } ] }

def c4Out : Config :=
  { tracks := [Track.merged { name := "m", url := "m.txt", tracks := [{ name := "c", url := "u.txt", format := UnsetOr.val "bed" }] }] }

/-- The spec's end-to-end merged scenario: a merged track with two wig-shaped
children with `format: "bigwig"` (with the `name`/`url` fields the schema
requires). -/
def c4ScenRaw : RawConfig :=
  { tracks := Option.some
      [ { type_ := Option.some (Option.some "merged")
          name := Option.some (Option.some "m")
          url := Option.some (Option.some "m.txt")
          tracks := Option.some (Option.some
            [ { type_ := Option.some (Option.some "wig")
                format := Option.some (Option.some "bigwig")
                name := Option.some (Option.some "w1")
                url := Option.some (Option.some "u1.bigWig") }
            , { type_ := Option.some (Option.some "wig")
                format := Option.some (Option.some "bigwig")
                name := Option.some (Option.some "w2")
                url := Option.some (Option.some "u2.bigWig") } ]) } ] }

def c4ScenOut : Config :=
  { tracks := [Track.merged { name := "m", url := "m.txt", tracks := [{ name := "w1", url := "u1.bigWig", format := UnsetOr.val "bigwig" }, { name := "w2", url := "u2.bigWig", format := UnsetOr.val "bigwig" }] }] }

/-- The shape of the repository's own `test_merged` fixture: a merged track
without a `url` key (children shortened to one, given the required fields). -/
def c5Raw : RawConfig :=
  { tracks := Option.some
      [ { type_ := Option.some (Option.some "merged")
          name := Option.some (Option.some "Merged")
          tracks := Option.some (Option.some
            [ { type_ := Option.some (Option.some "wig")
                format := Option.some (Option.some "bigwig")
                name := Option.some (Option.some "w1")
                url := Option.some (Option.some "u1") } ]) } ] }

/-- A raw track dictionary with a `name` but no `url` key. -/
def rw5W : RawWig := { name := Option.some (Option.some "x") }

/-- A minimal raw track: tag plus the two required fields only. -/
def minRaw (tag : String) : RawTrack :=
  { type_ := Option.some (Option.some tag)
    name := Option.some (Option.some "t")
    url := Option.some (Option.some "u") }

/-- The minimal wig raw with an explicit `"autoscale": null` entry. -/
def wigNullAutoscale : RawTrack :=
  { minRaw "wig" with autoscale := Option.some Option.none }

theorem fmtIn_nil (format_ : Option String) : fmtIn format_ [] = false := by
  cases format_ <;> rfl

theorem resolve_eq_applyRules (type_ format_ : Option String) :
    resolve_track_type type_ format_ = applyRules specRules type_ format_ := by
  simp only [resolve_track_type, applyRules, specRules, ruleMatches, fmtIn_nil,
    Bool.or_false]

@[simp] theorem exBindOk (a : α) (f : α → Except String β) :
    (Except.ok a : Except String α) >>= f = f a := rfl

@[simp] theorem exBindErr (e : String) (f : α → Except String β) :
    (Except.error e : Except String α) >>= f = Except.error e := rfl

@[simp] theorem exMapOk (f : α → β) (a : α) :
    f <$> (Except.ok a : Except String α) = Except.ok (f a) := rfl

@[simp] theorem exMapErr (f : α → β) (e : String) :
    f <$> (Except.error e : Except String α) = Except.error e := rfl

@[simp] theorem readOpt_toRaw (u : UnsetOr α) : readOpt u.toRaw = Except.ok u := by
  cases u <;> rfl

@[simp] theorem readReq_toRawVal (n : String) (a : α) :
    readReq n (Option.some (Option.some a)) = Except.ok a := rfl

@[simp] theorem readAutoscale_enc (a : Option Bool) :
    readAutoscale (a.map Option.some) = Except.ok a := by
  cases a <;> rfl

@[simp] theorem readOptRawInt_enc (u : UnsetOr Int) :
    readOptRawInt ((u.map RawNum.int).toRaw) = Except.ok u := by
  cases u <;> rfl

@[simp] theorem readOptRawFloat_enc (u : UnsetOr PyFloat) :
    readOptRawFloat ((u.map RawNum.float).toRaw) = Except.ok u := by
  cases u <;> rfl

@[simp] theorem readOptSortAln_enc (u : UnsetOr AlignmentSorting) :
    readOptSortAln ((u.map RawSortVal.aln).toRaw) = Except.ok u := by
  cases u <;> rfl

@[simp] theorem readOptSortSeg_enc (u : UnsetOr SegmentedCopyNumberSorting) :
    readOptSortSeg ((u.map RawSortVal.seg).toRaw) = Except.ok u := by
  cases u <;> rfl

theorem readOptEnum_enc {ε : Type} (parse : String → Except String ε)
    (print : ε → String) (h : ∀ x, parse (print x) = Except.ok x)
    (u : UnsetOr ε) : readOptEnum parse ((u.map print).toRaw) = Except.ok u := by
  cases u with
  | unset => rfl
  | val x => simp [readOptEnum, UnsetOr.map, UnsetOr.toRaw, h x, Except.map]

@[simp] theorem sourceType_parse_print (x : SourceType) :
    SourceType.parse (SourceType.print x) = Except.ok x := by cases x <;> rfl

@[simp] theorem displayModeCES_parse_print (x : DisplayModeCES) :
    DisplayModeCES.parse (DisplayModeCES.print x) = Except.ok x := by cases x <;> rfl

@[simp] theorem displayModeESFull_parse_print (x : DisplayModeESFull) :
    DisplayModeESFull.parse (DisplayModeESFull.print x) = Except.ok x := by
  cases x <;> rfl

@[simp] theorem displayModeESFill_parse_print (x : DisplayModeESFill) :
    DisplayModeESFill.parse (DisplayModeESFill.print x) = Except.ok x := by
  cases x <;> rfl

@[simp] theorem graphType_parse_print (x : GraphType) :
    GraphType.parse (GraphType.print x) = Except.ok x := by cases x <;> rfl

@[simp] theorem windowFunction_parse_print (x : WindowFunction) :
    WindowFunction.parse (WindowFunction.print x) = Except.ok x := by cases x <;> rfl

@[simp] theorem arcTypeE_parse_print (x : ArcTypeE) :
    ArcTypeE.parse (ArcTypeE.print x) = Except.ok x := by cases x <;> rfl

@[simp] theorem arcOrientation_parse_print (x : ArcOrientation) :
    ArcOrientation.parse (ArcOrientation.print x) = Except.ok x := by cases x <;> rfl

@[simp] theorem junctionColorBy_parse_print (x : JunctionColorBy) :
    JunctionColorBy.parse (JunctionColorBy.print x) = Except.ok x := by
  cases x <;> rfl

@[simp] theorem thicknessBasedOn_parse_print (x : ThicknessBasedOn) :
    ThicknessBasedOn.parse (ThicknessBasedOn.print x) = Except.ok x := by
  cases x <;> rfl

@[simp] theorem bounceHeightBasedOn_parse_print (x : BounceHeightBasedOn) :
    BounceHeightBasedOn.parse (BounceHeightBasedOn.print x) = Except.ok x := by
  cases x <;> rfl

@[simp] theorem hideStrand_parse_print (x : HideStrand) :
    HideStrand.parse (HideStrand.print x) = Except.ok x := by cases x <;> rfl

@[simp] theorem signalName_parse_print (x : SignalName) :
    SignalName.parse (SignalName.print x) = Except.ok x := by cases x <;> rfl

@[simp] theorem cnvCaller_parse_print (x : CnvCaller) :
    CnvCaller.parse (CnvCaller.print x) = Except.ok x := by cases x <;> rfl

@[simp] theorem readOptEnum_sourceType (u : UnsetOr SourceType) :
    readOptEnum SourceType.parse ((u.map SourceType.print).toRaw) = Except.ok u :=
  readOptEnum_enc _ _ sourceType_parse_print u

@[simp] theorem readOptEnum_displayModeCES (u : UnsetOr DisplayModeCES) :
    readOptEnum DisplayModeCES.parse ((u.map DisplayModeCES.print).toRaw) =
      Except.ok u :=
  readOptEnum_enc _ _ displayModeCES_parse_print u

@[simp] theorem readOptEnum_displayModeESFull (u : UnsetOr DisplayModeESFull) :
    readOptEnum DisplayModeESFull.parse ((u.map DisplayModeESFull.print).toRaw) =
      Except.ok u :=
  readOptEnum_enc _ _ displayModeESFull_parse_print u

@[simp] theorem readOptEnum_displayModeESFill (u : UnsetOr DisplayModeESFill) :
    readOptEnum DisplayModeESFill.parse ((u.map DisplayModeESFill.print).toRaw) =
      Except.ok u :=
  readOptEnum_enc _ _ displayModeESFill_parse_print u

@[simp] theorem readOptEnum_graphType (u : UnsetOr GraphType) :
    readOptEnum GraphType.parse ((u.map GraphType.print).toRaw) = Except.ok u :=
  readOptEnum_enc _ _ graphType_parse_print u

@[simp] theorem readOptEnum_windowFunction (u : UnsetOr WindowFunction) :
    readOptEnum WindowFunction.parse ((u.map WindowFunction.print).toRaw) =
      Except.ok u :=
  readOptEnum_enc _ _ windowFunction_parse_print u

@[simp] theorem readOptEnum_arcTypeE (u : UnsetOr ArcTypeE) :
    readOptEnum ArcTypeE.parse ((u.map ArcTypeE.print).toRaw) = Except.ok u :=
  readOptEnum_enc _ _ arcTypeE_parse_print u

@[simp] theorem readOptEnum_arcOrientation (u : UnsetOr ArcOrientation) :
    readOptEnum ArcOrientation.parse ((u.map ArcOrientation.print).toRaw) =
      Except.ok u :=
  readOptEnum_enc _ _ arcOrientation_parse_print u

@[simp] theorem readOptEnum_junctionColorBy (u : UnsetOr JunctionColorBy) :
    readOptEnum JunctionColorBy.parse ((u.map JunctionColorBy.print).toRaw) =
      Except.ok u :=
  readOptEnum_enc _ _ junctionColorBy_parse_print u

@[simp] theorem readOptEnum_thicknessBasedOn (u : UnsetOr ThicknessBasedOn) :
    readOptEnum ThicknessBasedOn.parse ((u.map ThicknessBasedOn.print).toRaw) =
      Except.ok u :=
  readOptEnum_enc _ _ thicknessBasedOn_parse_print u

@[simp] theorem readOptEnum_bounceHeightBasedOn (u : UnsetOr BounceHeightBasedOn) :
    readOptEnum BounceHeightBasedOn.parse
        ((u.map BounceHeightBasedOn.print).toRaw) = Except.ok u :=
  readOptEnum_enc _ _ bounceHeightBasedOn_parse_print u

@[simp] theorem readOptEnum_hideStrand (u : UnsetOr HideStrand) :
    readOptEnum HideStrand.parse ((u.map HideStrand.print).toRaw) = Except.ok u :=
  readOptEnum_enc _ _ hideStrand_parse_print u

@[simp] theorem readOptEnum_signalName (u : UnsetOr SignalName) :
    readOptEnum SignalName.parse ((u.map SignalName.print).toRaw) = Except.ok u :=
  readOptEnum_enc _ _ signalName_parse_print u

@[simp] theorem readOptEnum_cnvCaller (u : UnsetOr CnvCaller) :
    readOptEnum CnvCaller.parse ((u.map CnvCaller.print).toRaw) = Except.ok u :=
  readOptEnum_enc _ _ cnvCaller_parse_print u

theorem decodeBase_encodeBase (b : BaseTrack) :
    decodeBase (encodeBase b) = Except.ok b := by
  obtain ⟨name, url, iu, st, fmt, idx, ord, col, h, mnh, mxh, vw, rem, hdr,
    oat, id⟩ := b
  simp [decodeBase, encodeBase]

/-- `decodeBase` only reads the sixteen base keys, so updating the tag key or
any wig-only key leaves its result unchanged. -/
@[simp] theorem decodeBase_ignores_wig (r : RawWig) (a : Option (Option String))
    (asc : Option (Option Bool)) (ag : Option (Option String))
    (mn mx : Option (Option RawNum)) (ac : Option (Option String))
    (cs : Option (Option (List (String × PyAny))))
    (gl : Option (Option (List GuideLine))) (gt : Option (Option String))
    (fa : Option (Option Bool)) (wf : Option (Option String)) :
    decodeBase { r with
      type_ := a
      autoscale := asc
      autoscale_group := ag
      min := mn
      max := mx
      alt_color := ac
      color_scale := cs
      guide_lines := gl
      graph_type := gt
      flip_axis := fa
      window_function := wf } = decodeBase r := rfl

theorem dec_enc_annot (t : AnnotationTrack) :
    decodeAnnotationT (encodeAnnotationT t) = Except.ok t := by
  obtain ⟨base, dm, erh, srh, nf, mr, se, sf, ft, ac, cb, ct⟩ := t
  simp [decodeAnnotationT, encodeAnnotationT, decodeBase_encodeBase]

theorem dec_enc_wigChild (t : WigTrack) :
    decodeWigChild (encodeWigChild t) = Except.ok t := by
  obtain ⟨base, asc, ag, mn, mx, ac, cs, gl, gt, fa, wf⟩ := t
  simp [decodeWigChild, encodeWigChild, decodeBase_encodeBase, checkTag]

theorem dec_enc_alignment (t : AlignmentTrack) :
    decodeAlignmentT (encodeAlignmentT t) = Except.ok t := by
  obtain ⟨base, f1, f2, f3, f4, f5, f6, f7, f8, f9, f10, f11, f12, f13, f14,
    f15, f16, f17, f18, f19, f20, f21, f22, f23, f24, f25, f26, f27, f28, f29,
    f30, f31, f32, f33⟩ := t
  simp [decodeAlignmentT, encodeAlignmentT, decodeBase_encodeBase]

theorem dec_enc_variant (t : VariantTrack) :
    decodeVariantT (encodeVariantT t) = Except.ok t := by
  obtain ⟨base, dm, sch, ech, cb, ct, ncc, hvc, htc, hrc⟩ := t
  simp [decodeVariantT, encodeVariantT, decodeBase_encodeBase]

theorem dec_enc_mutation (t : MutationTrack) :
    decodeMutationT (encodeMutationT t) = Except.ok t := by
  obtain ⟨base, dm⟩ := t
  simp [decodeMutationT, encodeMutationT, decodeBase_encodeBase]

theorem dec_enc_seg (t : SegmentedCopyNumberTrack) :
    decodeSegT (encodeSegT t) = Except.ok t := by
  obtain ⟨base, dm, sort⟩ := t
  simp [decodeSegT, encodeSegT, decodeBase_encodeBase]

theorem dec_enc_interact (t : InteractTrack) :
    decodeInteractT (encodeInteractT t) = Except.ok t := by
  obtain ⟨base, at_, ao, al, th⟩ := t
  simp [decodeInteractT, encodeInteractT, decodeBase_encodeBase]

theorem dec_enc_qtl (t : QtlTrack) :
    decodeQtlT (encodeQtlT t) = Except.ok t := by
  obtain ⟨base, mn, mx, ap⟩ := t
  simp [decodeQtlT, encodeQtlT, decodeBase_encodeBase]

theorem dec_enc_junction (t : SpliceJunctionTrack) :
    decodeJunctionT (encodeJunctionT t) = Except.ok t := by
  obtain ⟨base, f1, f2, f3, f4, f5, f6, f7, f8, f9, f10, f11, f12, f13, f14,
    f15, f16, f17⟩ := t
  simp [decodeJunctionT, encodeJunctionT, decodeBase_encodeBase]

theorem dec_enc_cnvpytor (t : CnvPytorTrack) :
    decodeCnvPytorT (encodeCnvPytorT t) = Except.ok t := by
  obtain ⟨base, sn, cc, bs, co⟩ := t
  simp [decodeCnvPytorT, encodeCnvPytorT, decodeBase_encodeBase]

theorem mapE_map_ok {g : β → Except String α} {f : α → β}
    (h : ∀ a, g (f a) = Except.ok a) :
    ∀ l : List α, mapE g (l.map f) = Except.ok l
  | [] => rfl
  | a :: as => by simp [mapE, h a, mapE_map_ok h as]

theorem dec_enc_merged (t : MergedTrack) :
    decodeMergedT (encodeMergedT t) = Except.ok t := by
  obtain ⟨base, kids, alpha⟩ := t
  cases kids with
  | nil =>
    simp [decodeMergedT, encodeMergedT, decodeBase_encodeBase, mapE]
  | cons k ks =>
    have h := mapE_map_ok dec_enc_wigChild (k :: ks)
    simp only [List.map_cons] at h
    simp [decodeMergedT, encodeMergedT, decodeBase_encodeBase, h]

theorem dec_enc_arc (t : ArcTrack) :
    decodeArcT (encodeArcT t) = Except.ok t := by
  obtain ⟨base, ao⟩ := t
  simp [decodeArcT, encodeArcT, decodeBase_encodeBase]

theorem dec_enc_track (t : Track) :
    decodeTrack (encodeTrack t) = Except.ok t := by
  cases t with
  | annot t =>
    have h : decodeTrack (encodeTrack (Track.annot t)) =
        Track.annot <$> decodeAnnotationT (encodeAnnotationT t) := rfl
    rw [h, dec_enc_annot]; rfl
  | wig t =>
    have h : decodeTrack (encodeTrack (Track.wig t)) =
        Track.wig <$> decodeWigChild (encodeWigChild t) := rfl
    rw [h, dec_enc_wigChild]; rfl
  | alignment t =>
    have h : decodeTrack (encodeTrack (Track.alignment t)) =
        Track.alignment <$> decodeAlignmentT (encodeAlignmentT t) := rfl
    rw [h, dec_enc_alignment]; rfl
  | variant t =>
    have h : decodeTrack (encodeTrack (Track.variant t)) =
        Track.variant <$> decodeVariantT (encodeVariantT t) := rfl
    rw [h, dec_enc_variant]; rfl
  | mutation t =>
    have h : decodeTrack (encodeTrack (Track.mutation t)) =
        Track.mutation <$> decodeMutationT (encodeMutationT t) := rfl
    rw [h, dec_enc_mutation]; rfl
  | seg t =>
    have h : decodeTrack (encodeTrack (Track.seg t)) =
        Track.seg <$> decodeSegT (encodeSegT t) := rfl
    rw [h, dec_enc_seg]; rfl
  | interact t =>
    have h : decodeTrack (encodeTrack (Track.interact t)) =
        Track.interact <$> decodeInteractT (encodeInteractT t) := rfl
    rw [h, dec_enc_interact]; rfl
  | qtl t =>
    have h : decodeTrack (encodeTrack (Track.qtl t)) =
        Track.qtl <$> decodeQtlT (encodeQtlT t) := rfl
    rw [h, dec_enc_qtl]; rfl
  | junction t =>
    have h : decodeTrack (encodeTrack (Track.junction t)) =
        Track.junction <$> decodeJunctionT (encodeJunctionT t) := rfl
    rw [h, dec_enc_junction]; rfl
  | cnvpytor t =>
    have h : decodeTrack (encodeTrack (Track.cnvpytor t)) =
        Track.cnvpytor <$> decodeCnvPytorT (encodeCnvPytorT t) := rfl
    rw [h, dec_enc_cnvpytor]; rfl
  | merged t =>
    have h : decodeTrack (encodeTrack (Track.merged t)) =
        Track.merged <$> decodeMergedT (encodeMergedT t) := rfl
    rw [h, dec_enc_merged]; rfl
  | arc t =>
    have h : decodeTrack (encodeTrack (Track.arc t)) =
        Track.arc <$> decodeArcT (encodeArcT t) := rfl
    rw [h, dec_enc_arc]; rfl

/-- Round trip through the wire form without the resolver step: the structural
copy taken at the start of `Config.servable` is the identity. -/
theorem decodeConfig_encodeConfig (c : Config) :
    decodeConfig (encodeConfig c) = Except.ok c := by
  obtain ⟨g, l, s, tracks⟩ := c
  cases tracks with
  | nil => simp [decodeConfig, encodeConfig, mapE]
  | cons a as =>
    have h := mapE_map_ok dec_enc_track (a :: as)
    simp only [List.map_cons] at h
    simp [decodeConfig, encodeConfig, h]

theorem applyRules_error_iff (rules : List (String × List String))
    (type_ format_ : Option String) :
    applyRules rules type_ format_ = Except.error "Unknown track type, got: \x7b\x7d" ↔
      ∀ r ∈ rules, ruleMatches type_ format_ r = false := by
  induction rules with
  | nil => simp [applyRules]
  | cons r rs ih =>
    simp only [applyRules]
    by_cases h : ruleMatches type_ format_ r
    · simp [h]
    · simp [h, ih]

/-- C1: `resolve_track_type` evaluates the thirteen rules of spec section 4.2
as an ordered first-match chain over exactly the listed type strings and
format sets (`applyRules specRules`); the ambiguous pair
`(None, "bed")` resolves to `"annotation"` (the first matching rule) and not
to gwas/junction/arc; it fails with the `UnknownTrackType` error exactly when
no rule matches, and in particular on `(None, None)`. -/
theorem c1_resolver_first_match_chain :
    (∀ type_ format_ : Option String,
        resolve_track_type type_ format_ = applyRules specRules type_ format_) ∧
    (∀ type_ format_ : Option String,
        resolve_track_type type_ format_ =
            Except.error "Unknown track type, got: \x7b\x7d" ↔
          ∀ r ∈ specRules, ruleMatches type_ format_ r = false) ∧
    resolve_track_type Option.none (Option.some "bed") = Except.ok "annotation" ∧
    resolve_track_type Option.none Option.none =
      Except.error "Unknown track type, got: \x7b\x7d" :=
  ⟨resolve_eq_applyRules,
   fun type_ format_ => (resolve_eq_applyRules type_ format_) ▸
     applyRules_error_iff specRules type_ format_,
   rfl, rfl⟩

/-- Witness for C1 at concrete inputs: the chain equality at
`("seg", "mut")` (an ambiguous pair) and the error characterisation at
`(None, None)`. -/
theorem c1_resolver_first_match_chain_witness :
    resolve_track_type (Option.some "seg") (Option.some "mut") =
      applyRules specRules (Option.some "seg") (Option.some "mut") ∧
    (resolve_track_type Option.none Option.none =
        Except.error "Unknown track type, got: \x7b\x7d" ↔
      ∀ r ∈ specRules, ruleMatches Option.none Option.none r = false) :=
  ⟨c1_resolver_first_match_chain.1 (Option.some "seg") (Option.some "mut"),
   c1_resolver_first_match_chain.2.1 Option.none Option.none⟩

/-- C8: `guess_format` splits on `.`, lower-cases the last segment, falls back
to the second-to-last segment when the last one is `"gz"`, and returns the
unset value (`None`) when the filename is absent; `"a.b.GFF3.gz"` yields
`"gff3"`. -/
theorem c8_guess_format_algorithm :
    guess_format Option.none = Except.ok Option.none ∧
    (∀ (f last : String) (rest : List String),
        (pySplitDot f).reverse = last :: rest →
        pyLower last ≠ "gz" →
        guess_format (Option.some f) = Except.ok (Option.some (pyLower last))) ∧
    (∀ (f last prev : String) (rest : List String),
        (pySplitDot f).reverse = last :: prev :: rest →
        pyLower last = "gz" →
        guess_format (Option.some f) = Except.ok (Option.some (pyLower prev))) ∧
    guess_format (Option.some "a.b.GFF3.gz") = Except.ok (Option.some "gff3") := by
  refine ⟨rfl, ?_, ?_, rfl⟩
  · intro f last rest h hne
    simp [guess_format, h, hne]
  · intro f last prev rest h hgz
    simp [guess_format, h, hgz]

/-- Witness for C8 at concrete inputs: `"x.bed"` (last segment not `gz`)
gives `"bed"`, and `"foo.SEG.gz"` gives `"seg"`. -/
theorem c8_guess_format_witness :
    guess_format (Option.some "x.bed") = Except.ok (Option.some "bed") ∧
    guess_format (Option.some "foo.SEG.gz") = Except.ok (Option.some "seg") := by
  constructor
  · exact c8_guess_format_algorithm.2.1 "x.bed" "bed" ["x"] rfl (by decide)
  · exact c8_guess_format_algorithm.2.2.1 "foo.SEG.gz" "gz" "SEG" ["foo"] rfl rfl

/-- C10: `guess_format` is not total on present filenames: a dot-free filename
that lower-cases to `"gz"` makes `parts[-2]` fail with an index-out-of-range
error, while every other dot-free filename is returned lower-cased. -/
theorem c10_guess_format_gz_partiality :
    guess_format (Option.some "gz") =
      Except.error "IndexError: list index out of range" ∧
    (∀ f : String, pySplitDot f = [f] → pyLower f = "gz" →
        guess_format (Option.some f) =
          Except.error "IndexError: list index out of range") ∧
    (∀ f : String, pySplitDot f = [f] → pyLower f ≠ "gz" →
        guess_format (Option.some f) = Except.ok (Option.some (pyLower f))) := by
  refine ⟨rfl, ?_, ?_⟩
  · intro f h hgz
    simp [guess_format, h, hgz]
  · intro f h hne
    simp [guess_format, h, hne]

theorem encodeTrack_type (t : Track) :
    (encodeTrack t).type_ = Option.some (Option.some (Track.tagOf t)) := by
  cases t <;> rfl

theorem encodeTrack_url (t : Track) :
    (encodeTrack t).url = Option.some (Option.some t.base.url) := by
  cases t <;> rfl

theorem encodeTrack_format (t : Track) :
    (encodeTrack t).format = t.base.format.toRaw := by
  cases t <;> rfl

theorem encodeTrack_retag (t : Track) :
    ({ encodeTrack t with
        type_ := Option.some (Option.some (Track.tagOf t)) } : RawTrack) =
      encodeTrack t := by
  cases t <;> rfl

/-- `resolveRawTrackType` on a raw track whose tag, guessed format and format
key re-resolve to the same tag only rewrites the `type` key with that tag. -/
theorem resolveRawTrackType_id (r : RawTrack) (tag : String)
    (fmtArg g : Option String)
    (hty : r.type_ = Option.some (Option.some tag))
    (hguess : guess_format r.url.join = Except.ok g)
    (hfmt : (match r.format with
             | Option.none => g
             | Option.some v => v) = fmtArg)
    (hres : resolve_track_type (Option.some tag) fmtArg = Except.ok tag) :
    resolveRawTrackType r =
      Except.ok { r with type_ := Option.some (Option.some tag) } := by
  unfold resolveRawTrackType
  rw [hguess]
  simp only [exBindOk]
  rw [hfmt, hty]
  simp only [Option.join, Option.some_bind, id]
  rw [hres]
  simp only [exBindOk]

/-- Re-running the resolver step of `from_dict` on a serialized track is the
identity whenever the track's own tag together with its serialized format
argument resolves back to the same tag. -/
theorem resolveRawTrackType_encodeTrack (t : Track) (fmtArg : Option String)
    (h1 : resolvedFormatArg t = Except.ok fmtArg)
    (h2 : resolve_track_type (Option.some (Track.tagOf t)) fmtArg =
      Except.ok (Track.tagOf t)) :
    resolveRawTrackType (encodeTrack t) = Except.ok (encodeTrack t) := by
  unfold resolvedFormatArg at h1
  cases hg : guess_format (Option.some t.base.url) with
  | error e => rw [hg] at h1; simp at h1
  | ok g =>
    rw [hg] at h1
    simp only [exBindOk] at h1
    injection h1 with h1
    have hguess : guess_format (encodeTrack t).url.join = Except.ok g := by
      rw [encodeTrack_url]
      simp only [Option.join, Option.some_bind, id]
      exact hg
    have hfmt : (match (encodeTrack t).format with
                 | Option.none => g
                 | Option.some v => v) = fmtArg := by
      rw [encodeTrack_format]
      cases hf : t.base.format with
      | unset => rw [hf] at h1; simpa [UnsetOr.toRaw] using h1
      | val f => rw [hf] at h1; simpa [UnsetOr.toRaw] using h1
    have hid := resolveRawTrackType_id (encodeTrack t) (Track.tagOf t) fmtArg g
      (encodeTrack_type t) hguess hfmt h2
    rw [hid]
    exact congrArg Except.ok (encodeTrack_retag t)

theorem mapE_resolve_encoded (l : List Track)
    (h : ∀ t ∈ l, ∃ fmtArg, resolvedFormatArg t = Except.ok fmtArg ∧
        resolve_track_type (Option.some (Track.tagOf t)) fmtArg =
          Except.ok (Track.tagOf t)) :
    mapE resolveRawTrackType (l.map encodeTrack) =
      Except.ok (l.map encodeTrack) := by
  induction l with
  | nil => rfl
  | cons a as ih =>
    obtain ⟨fmtArg, h1, h2⟩ := h a (by simp)
    simp [mapE, resolveRawTrackType_encodeTrack a fmtArg h1 h2,
      ih (fun t ht => h t (by simp [ht]))]

theorem from_dict_encode (g : UnsetOr String) (l : UnsetOr LocusVal)
    (s : UnsetOr Bool) (tracks : List Track)
    (hres : mapE resolveRawTrackType (tracks.map encodeTrack) =
      Except.ok (tracks.map encodeTrack)) :
    Config.from_dict (encodeConfig ⟨g, l, s, tracks⟩) =
      Except.ok ⟨g, l, s, tracks⟩ := by
  cases tracks with
  | nil =>
    simp [Config.from_dict, encodeConfig, mapE, decodeConfig]
  | cons a as =>
    have hdec := mapE_map_ok dec_enc_track (a :: as)
    simp only [List.map_cons] at hdec hres
    simp [Config.from_dict, encodeConfig, decodeConfig, hres, hdec]

/-- C6 (amended): serialization round-trip.  `build(serialize(config)) ==
config` holds for every configuration in which each track's discriminant tag,
re-resolved from the serialized `type` and `format` keys (the format guessed
from the url when unset, guessed eagerly in either case), yields that same
tag again — and unset fields are omitted from the wire form and never
reappear.  Without this tag-stability condition the round trip can change a
track's variant (see the counterexample). -/
theorem c6_round_trip_amended (c : Config)
    (h : ∀ t ∈ c.tracks, ∃ fmtArg, resolvedFormatArg t = Except.ok fmtArg ∧
        resolve_track_type (Option.some (Track.tagOf t)) fmtArg =
          Except.ok (Track.tagOf t)) :
    Config.from_dict (encodeConfig c) = Except.ok c := by
  obtain ⟨g, l, s, tracks⟩ := c
  exact from_dict_encode g l s tracks (mapE_resolve_encoded tracks h)

/-- Witness for C6 at a concrete configuration (an annotation track with
`format "bed"`, whose tag re-resolves to `"annotation"`). -/
theorem c6_round_trip_witness :
    Config.from_dict (encodeConfig cfgC6W) = Except.ok cfgC6W :=
  c6_round_trip_amended cfgC6W (by
    intro t ht
    simp only [cfgC6W, List.mem_singleton] at ht
    subst ht
    exact ⟨Option.some "bed", rfl, rfl⟩)

/-- Counterexample to C6 as stated: a seg track with the set field
`format := "mut"` serializes to `type: "seg", format: "mut"`, but `from_dict`
re-resolves `("seg", "mut")` to `"mut"` (rule 5 fires before the seg rule),
so the round trip returns a `MutationTrack` — a different configuration. -/
theorem c6_round_trip_counterexample :
    Config.from_dict (encodeConfig cfgSegMut) = Except.ok cfgMutOut ∧
    cfgMutOut ≠ cfgSegMut := by
  constructor
  · rfl
  · intro h
    have h2 := congrArg (fun c => c.tracks.map Track.tagOf) h
    simp [cfgMutOut, cfgSegMut, mutTrackFmtMut, segTrackFmtMut,
      Track.tagOf] at h2

theorem mapE_ok_forall2 {g : α → Except String β} :
    ∀ {l : List α} {acc : List β}, mapE g l = Except.ok acc →
      List.Forall₂ (fun a b => g a = Except.ok b) l acc := by
  intro l
  induction l with
  | nil =>
    intro acc h
    simp only [mapE] at h
    injection h with h
    subst h
    exact List.Forall₂.nil
  | cons a as ih =>
    intro acc h
    unfold mapE at h
    cases hga : g a with
    | error e => rw [hga] at h; simp at h
    | ok b =>
      rw [hga] at h
      simp only [exBindOk] at h
      cases hmas : mapE g as with
      | error e => rw [hmas] at h; simp at h
      | ok bs =>
        rw [hmas] at h
        simp only [exBindOk] at h
        injection h with h
        subst h
        exact List.Forall₂.cons hga (ih hmas)

theorem childrenOf_setUrls (t : Track) (u : String) (iu : UnsetOr String) :
    Track.childrenOf (setUrls t u iu) = Track.childrenOf t := by
  cases t <;> rfl

theorem eraseUrls_setUrls (t : Track) (u : String) (iu : UnsetOr String) :
    eraseUrls (setUrls t u iu) = eraseUrls t := by
  cases t <;> rfl

theorem resolve_href (env : FsEnv) (s : String) (h : is_href s = true) :
    resolve_file_or_url env s = Except.ok s := by
  simp [resolve_file_or_url, h]

theorem rewriteTrack_ok_rel (env : FsEnv) (t t' : Track)
    (h : rewriteTrack env t = Except.ok t') : rewrittenUrls env t t' := by
  unfold rewriteTrack at h
  cases hu : resolve_file_or_url env t.base.url with
  | error e => rw [hu] at h; simp at h
  | ok u =>
    rw [hu] at h
    simp only [exBindOk] at h
    cases hiu : t.base.index_url with
    | unset =>
      rw [hiu] at h
      simp only [exBindOk] at h
      injection h with h
      refine ⟨u, UnsetOr.unset, hu, h.symm, ?_, ?_, ?_, fun _ => rfl, ?_⟩
      · intro hhref
        have := resolve_href env t.base.url hhref
        rw [this] at hu
        injection hu with hu
        exact hu.symm
      · rw [← h]; exact childrenOf_setUrls t u UnsetOr.unset
      · rw [← h]; exact eraseUrls_setUrls t u UnsetOr.unset
      · intro v hv
        rw [hiu] at hv
        cases hv
    | val v =>
      rw [hiu] at h
      simp only [] at h
      cases hw : resolve_file_or_url env v with
      | error e => rw [hw] at h; simp at h
      | ok w =>
        rw [hw] at h
        simp only [exBindOk] at h
        injection h with h
        refine ⟨u, UnsetOr.val w, hu, h.symm, ?_, ?_, ?_, ?_, ?_⟩
        · intro hhref
          have := resolve_href env t.base.url hhref
          rw [this] at hu
          injection hu with hu
          exact hu.symm
        · rw [← h]; exact childrenOf_setUrls t u (UnsetOr.val w)
        · rw [← h]; exact eraseUrls_setUrls t u (UnsetOr.val w)
        · intro habs; rw [habs] at hiu; cases hiu
        · intro v' hv'
          rw [hiu] at hv'
          injection hv' with hv'
          subst hv'
          exact ⟨w, hw, rfl⟩

/-- C2 (amended): on success, `servable` preserves `genome`, `locus` and
`show_sample_names`, and maps the top-level track list pointwise: each
track's `url` (and set `index_url`) is resolved — remote references passing
through unchanged, local ones replaced by provider-issued URLs — with every
other field intact, and with the nested children of a merged track left
exactly as they were (they are not rewritten; see the counterexample). -/
theorem c2_servable_amended (env : FsEnv) (c cOut : Config)
    (h : Config.servable env c = Except.ok cOut) :
    cOut.genome = c.genome ∧ cOut.locus = c.locus ∧
    cOut.show_sample_names = c.show_sample_names ∧
    List.Forall₂ (rewrittenUrls env) c.tracks cOut.tracks := by
  unfold Config.servable at h
  rw [decodeConfig_encodeConfig] at h
  simp only [exBindOk] at h
  cases hm : mapE (rewriteTrack env) c.tracks with
  | error e => rw [hm] at h; simp at h
  | ok ts =>
    rw [hm] at h
    simp only [exBindOk] at h
    injection h with h
    subst h
    exact ⟨rfl, rfl, rfl,
      List.Forall₂.imp (fun a b hab => rewriteTrack_ok_rel env a b hab)
        (mapE_ok_forall2 hm)⟩

/-- Witness for C2 at a concrete configuration: a remote annotation track
(url and indexURL untouched) and a local wig track (url rewritten to the
provider URL for its absolutised path). -/
theorem c2_servable_witness :
    cfgC2Wout.genome = cfgC2W.genome ∧ cfgC2Wout.locus = cfgC2W.locus ∧
    cfgC2Wout.show_sample_names = cfgC2W.show_sample_names ∧
    List.Forall₂ (rewrittenUrls envW) cfgC2W.tracks cfgC2Wout.tracks :=
  c2_servable_amended envW cfgC2W cfgC2Wout rfl

/-- Counterexample to C2 as stated: `servable` does not recurse into
`MergedTrack.tracks`.  With a filesystem on which every path exists, the
merged track's own local url is rewritten to a provider URL but its child's
local url `"child.bw"` survives unchanged — it is neither remote nor a
provider-issued URL. -/
theorem c2_servable_counterexample :
    Config.servable envAll mergedCfgC2 = Except.ok mergedCfgC2Out ∧
    mergedCfgC2Out.tracks.map Track.childrenOf = [[childW]] ∧
    childW.url = "child.bw" ∧
    is_href "child.bw" = false ∧
    "child.bw" ≠ envAll.provideUrl (envAll.resolvePath "child.bw") := by
  refine ⟨rfl, rfl, rfl, rfl, ?_⟩
  intro h
  exact absurd (congrArg String.length h) (by decide)

theorem resolve_bad (env : FsEnv) (s : String) (h : badLocalUrl env s) :
    resolve_file_or_url env s =
      Except.error ("FileNotFoundError: " ++ env.resolvePath s) := by
  obtain ⟨h1, h2⟩ := h
  rcases h2 with h2 | h2 <;> simp [resolve_file_or_url, h1, h2]

theorem rewriteTrack_bad (env : FsEnv) (t : Track)
    (h : badLocalUrl env t.base.url ∨
      ∃ v, t.base.index_url = UnsetOr.val v ∧ badLocalUrl env v) :
    ∃ e, rewriteTrack env t = Except.error e := by
  unfold rewriteTrack
  rcases h with h | ⟨v, hv, h⟩
  · refine ⟨"FileNotFoundError: " ++ env.resolvePath t.base.url, ?_⟩
    rw [resolve_bad env _ h]
    rfl
  · cases hu : resolve_file_or_url env t.base.url with
    | error e => exact ⟨e, rfl⟩
    | ok u =>
      refine ⟨"FileNotFoundError: " ++ env.resolvePath v, ?_⟩
      simp only [exBindOk]
      rw [hv]
      simp only []
      rw [resolve_bad env v h]
      rfl

theorem mapE_error_of_mem {g : α → Except String β} {l : List α} {a : α}
    (ha : a ∈ l) (h : ∃ e, g a = Except.error e) :
    ∃ e, mapE g l = Except.error e := by
  induction l with
  | nil => cases ha
  | cons x xs ih =>
    cases hgx : g x with
    | error e => exact ⟨e, by unfold mapE; rw [hgx]; rfl⟩
    | ok b =>
      rcases List.mem_cons.mp ha with rfl | ha2
      · obtain ⟨e, he⟩ := h
        rw [hgx] at he
        cases he
      · obtain ⟨e, he⟩ := ih ha2
        refine ⟨e, ?_⟩
        unfold mapE
        rw [hgx]
        simp only [exBindOk]
        rw [he]
        rfl

/-- C7: if some track's `url` (or set `index_url`) is a local reference whose
resolved path is missing or not a regular file, `servable` fails with
`FileNotFoundError`; the loop runs on a structural copy taken up front
(`convert(to_builtins(self))`, the identity on values), so the original
configuration value is untouched. -/
theorem c7_servable_missing_file (env : FsEnv) (c : Config)
    (h : ∃ t ∈ c.tracks, badLocalUrl env t.base.url ∨
      ∃ v, t.base.index_url = UnsetOr.val v ∧ badLocalUrl env v) :
    (∃ e, Config.servable env c = Except.error e) ∧
    decodeConfig (encodeConfig c) = Except.ok c := by
  obtain ⟨t, ht, hbad⟩ := h
  obtain ⟨e, he⟩ := mapE_error_of_mem ht (rewriteTrack_bad env t hbad)
  refine ⟨⟨e, ?_⟩, decodeConfig_encodeConfig c⟩
  unfold Config.servable
  rw [decodeConfig_encodeConfig]
  simp only [exBindOk]
  rw [he]
  rfl

/-- Witness for C7: on a filesystem with no regular files, a track whose url
is the local path `"missing.bed"` makes `servable` fail. -/
theorem c7_servable_missing_file_witness :
    (∃ e, Config.servable envBad cfgC7W = Except.error e) ∧
    decodeConfig (encodeConfig cfgC7W) = Except.ok cfgC7W :=
  c7_servable_missing_file envBad cfgC7W
    ⟨Track.annot { name := "a", url := "missing.bed" },
     List.mem_singleton.mpr rfl,
     Or.inl ⟨rfl, Or.inl rfl⟩⟩

theorem map_ok_inv {f : α → β} {m : Except String α} {b : β}
    (h : f <$> m = Except.ok b) : ∃ a, m = Except.ok a ∧ b = f a := by
  cases m with
  | error e => simp at h
  | ok a =>
    refine ⟨a, rfl, ?_⟩
    simp only [exMapOk] at h
    injection h with h
    exact h.symm

/-- C3: the `Track` union omits `GwasTrack`.  Every successfully decoded
track carries a tag from `unionTags`, that list does not contain `"gwas"`,
yet the resolver classifies `(None, "gwas")` as `"gwas"` — so building a
configuration whose track resolves to the gwas tag fails instead of
producing a `GwasTrack`. -/
theorem c3_gwas_missing_from_union :
    (∀ (r : RawTrack) (tOut : Track), decodeTrack r = Except.ok tOut →
        r.type_ = Option.some (Option.some (Track.tagOf tOut)) ∧
        unionTags.contains (Track.tagOf tOut) = true) ∧
    unionTags.contains "gwas" = false ∧
    resolve_track_type Option.none (Option.some "gwas") = Except.ok "gwas" ∧
    Config.from_dict gwasRawCfg =
      Except.error "Invalid value gwas - at field type" := by
  refine ⟨?_, rfl, rfl, rfl⟩
  intro r tOut h
  unfold decodeTrack at h
  split at h
  all_goals
    first
      | exact (Except.noConfusion h)
      | (rename_i heq
         obtain ⟨x, hx, rfl⟩ := map_ok_inv h
         exact ⟨heq, rfl⟩)

/-- Witness for C3's universally quantified part at a concrete decode. -/
theorem c3_gwas_missing_from_union_witness :
    (minRaw "annotation").type_ =
      Option.some (Option.some
        (Track.tagOf (Track.annot { name := "t", url := "u" }))) ∧
    unionTags.contains
      (Track.tagOf (Track.annot { name := "t", url := "u" })) = true :=
  c3_gwas_missing_from_union.1 (minRaw "annotation")
    (Track.annot { name := "t", url := "u" }) rfl

/-- C4 (amended): `from_dict` resolves the discriminant only for top-level
tracks; a merged track's children are decoded directly as `WigTrack` values
— no per-child type resolution — and appear in input order. -/
theorem c4_merged_children_amended :
    Config.from_dict c4ScenRaw = Except.ok c4ScenOut := rfl

/-- Counterexample to C4 as stated: build succeeds on a merged track whose
child carries `type "wig"`, `format "bed"`, although `("wig", "bed")`
re-resolves to `"annotation"` under the claimed per-child resolution — and
a child actually retagged `"annotation"` would fail to decode.  So children
do not pass through `resolve_track_type`. -/
theorem c4_merged_children_counterexample :
    Config.from_dict c4Raw = Except.ok c4Out ∧
    resolve_track_type (Option.some "wig") (Option.some "bed") =
      Except.ok "annotation" ∧
    (∃ e, decodeWigChild
        { c4RawChild with type_ := Option.some (Option.some "annotation") } =
      Except.error e) :=
  ⟨rfl, rfl, ⟨_, rfl⟩⟩

/-- C5: `url` is a required field of `BaseTrack` and `MergedTrack` inherits
it, so the repository's own `test_merged` fixture — a merged track without a
`url` key — fails to build, and more generally no track dictionary lacking
`url` decodes. -/
theorem c5_merged_url_required_bug :
    Config.from_dict c5Raw =
      Except.error "Object missing required field url" ∧
    (∀ r : RawWig, r.url = Option.none →
      ∀ b, decodeBase r ≠ Except.ok b) := by
  refine ⟨rfl, ?_⟩
  intro r hr b h
  unfold decodeBase at h
  cases hn : readReq "name" r.name with
  | error e => rw [hn] at h; simp at h
  | ok nm =>
    rw [hn] at h
    simp only [exBindOk] at h
    rw [hr] at h
    simp [readReq] at h

/-- Witness for C5's universally quantified part: the base decode of a raw
dictionary with a `name` but no `url` is not a success. -/
theorem c5_merged_url_required_bug_witness :
    (decodeBase rw5W).isOk = false := by
  have h2 := c5_merged_url_required_bug.2 rw5W rfl
  cases h : decodeBase rw5W with
  | error e => rfl
  | ok b => exact absurd h (h2 b)

/-- C9 (amended): decoding each variant from its minimal dictionary (tag,
`name`, `url`) materializes no optional value — every optional field of the
result is the unset sentinel, except `WigTrack.autoscale`, whose default is
null — and an explicit null for an `UNSET`-defaulted field such as
`index_url` is rejected rather than conflated with unset. -/
theorem c9_unset_sentinel_amended :
    decodeTrack (minRaw "annotation") =
      Except.ok (Track.annot { name := "t", url := "u" }) ∧
    decodeTrack (minRaw "wig") =
      Except.ok (Track.wig { name := "t", url := "u" }) ∧
    decodeTrack (minRaw "alignment") =
      Except.ok (Track.alignment { name := "t", url := "u" }) ∧
    decodeTrack (minRaw "variant") =
      Except.ok (Track.variant { name := "t", url := "u" }) ∧
    decodeTrack (minRaw "mut") =
      Except.ok (Track.mutation { name := "t", url := "u" }) ∧
    decodeTrack (minRaw "seg") =
      Except.ok (Track.seg { name := "t", url := "u" }) ∧
    decodeTrack (minRaw "interact") =
      Except.ok (Track.interact { name := "t", url := "u" }) ∧
    decodeTrack (minRaw "qtl") =
      Except.ok (Track.qtl { name := "t", url := "u" }) ∧
    decodeTrack (minRaw "junction") =
      Except.ok (Track.junction { name := "t", url := "u" }) ∧
    decodeTrack (minRaw "cnvpytor") =
      Except.ok (Track.cnvpytor { name := "t", url := "u" }) ∧
    decodeTrack (minRaw "merged") =
      Except.ok (Track.merged { name := "t", url := "u" }) ∧
    decodeTrack (minRaw "arc") =
      Except.ok (Track.arc { name := "t", url := "u" }) ∧
    (∃ e, decodeTrack
        { minRaw "annotation" with index_url := Option.some Option.none } =
      Except.error e) :=
  ⟨rfl, rfl, rfl, rfl, rfl, rfl, rfl, rfl, rfl, rfl, rfl, rfl, ⟨_, rfl⟩⟩

/-- Counterexample to C9 as stated: `WigTrack.autoscale` defaults to null,
not to the unset sentinel — a wig dictionary with an explicit
`"autoscale": null` decodes to exactly the same value as one without the
key, so a supplied null is not distinguishable from the field being unset. -/
theorem c9_unset_sentinel_counterexample :
    decodeTrack wigNullAutoscale =
      Except.ok (Track.wig { name := "t", url := "u" }) ∧
    decodeTrack (minRaw "wig") =
      Except.ok (Track.wig { name := "t", url := "u" }) ∧
    ({ name := "t", url := "u" } : WigTrack).autoscale = Option.none :=
  ⟨rfl, rfl, rfl⟩

/-- Witness for C10 at concrete inputs: the filename `"GZ"` (dot-free,
lower-casing to `gz`) crashes, and the dot-free filename `"bed"` is returned
as-is. -/
theorem c10_guess_format_gz_partiality_witness :
    guess_format (Option.some "GZ") =
      Except.error "IndexError: list index out of range" ∧
    guess_format (Option.some "bed") = Except.ok (Option.some "bed") := by
  constructor
  · exact c10_guess_format_gz_partiality.2.1 "GZ" rfl rfl
  · exact c10_guess_format_gz_partiality.2.2 "bed" rfl (by decide)

end Pygv
